import Mathlib

/-!
# Shallow embedding of the line-follower control-and-telemetry loop

This file embeds the core of `src/prog.py` (a line-following robot simulator
with dual-sink telemetry) into Lean and proves the specification claims about
it.  Python floats are modelled as rationals (`ℚ`); the wall clock is modelled
as a logical tick counter inside the logger state; the random sources
(`random.uniform`) are modelled as oracle functions supplied by the caller;
the remote HTTP side is modelled by the list of requests actually issued plus
an oracle for the outcome of the session-creation call.  A Python exception
inside the orchestrator's per-step loop is modelled by an explicit `exn`
outcome carrying the state at the point the exception is raised.
-/

namespace Robot

/-- `max(0.0, min(1.0, x))` as used throughout `prog.py`. -/
def clamp01 (x : ℚ) : ℚ := max 0 (min 1 x)

/-- `max(lo, min(hi, x))`. -/
def clamp (lo hi x : ℚ) : ℚ := max lo (min hi x)

/-- A row of the `sessions` table (`prog.py` schema). Timestamps are ticks. -/
structure Session where
  sid : Nat
  variantId : Nat
  startedAt : Nat
  endedAt : Option Nat
  status : String
  deriving Repr, DecidableEq

/-- A row of the `sensor_readings` table. -/
structure SensorRec where
  sessionId : Nat
  sensorType : String
  timestamp : Nat
  value : ℚ
  unit : String
  deriving Repr, DecidableEq

/-- A row of the `actuator_commands` table. -/
structure CommandRec where
  sessionId : Nat
  actuatorType : String
  timestamp : Nat
  command : ℚ
  status : String
  deriving Repr, DecidableEq

/-- A row of the `events` table. -/
structure EventRec where
  sessionId : Nat
  timestamp : Nat
  eventType : String
  severity : String
  message : String
  deriving Repr, DecidableEq

/-- Instrumentation: one entry per local telemetry call actually performed,
used to state the session-lifecycle claims ("exactly one end_session call"). -/
inductive TelOp where
  | opStart (sid : Nat) (ts : Nat)
  | opEnd (sid : Nat) (status : String) (ts : Nat)
  | opSensor (sid : Nat) (sensorType : String)
  | opCommand (sid : Nat) (actuatorType : String)
  | opEvent (sid : Nat) (eventType : String)
  deriving Repr, DecidableEq

/-- Is the op a `sessions`-table mutation (start_session or end_session)? -/
def TelOp.isSessionOp : TelOp → Bool
  | .opStart _ _ => true
  | .opEnd _ _ _ => true
  | _ => false

/-- Is the op an end_session call? -/
def TelOp.isEndOp : TelOp → Bool
  | .opEnd _ _ _ => true
  | _ => false

/-- State of `TelemetryLogger` together with its SQLite database content.
The connection is modelled as always open (`connect`/`init_schema` run when
`prog.py` is loaded); `clock` is the logical timestamp counter and
`nextSessionId` models SQLite's primary-key assignment (`cur.lastrowid`).
`trace` is instrumentation recording which logger calls were performed. -/
structure TelemetryLogger where
  sessionId : Option Nat
  sessions : List Session
  sensorReadings : List SensorRec
  actuatorCommands : List CommandRec
  events : List EventRec
  clock : Nat
  nextSessionId : Nat
  trace : List TelOp
  deriving Repr

/-- `TelemetryLogger.start_session`: INSERT a `running` session with no
ended-at, remember its id as the active session, return the id. -/
def TelemetryLogger.start_session (st : TelemetryLogger) (variantId : Nat) :
    Nat × TelemetryLogger :=
  let sid := st.nextSessionId
  (sid,
    { st with
      sessions := st.sessions ++ [⟨sid, variantId, st.clock, none, "running"⟩]
      sessionId := some sid
      nextSessionId := sid + 1
      clock := st.clock + 1
      trace := st.trace ++ [.opStart sid st.clock] })

/-- `TelemetryLogger.end_session`: UPDATE the active session's ended-at and
status.  Python asserts an active session exists; the `none` branch is
unreachable in the orchestrator (start_session always precedes) and is
modelled as a no-op. -/
def TelemetryLogger.end_session (st : TelemetryLogger) (status : String) :
    TelemetryLogger :=
  match st.sessionId with
  | none => st
  | some s =>
    { st with
      sessions := st.sessions.map fun sess =>
        if sess.sid = s then { sess with endedAt := some st.clock, status := status }
        else sess
      clock := st.clock + 1
      trace := st.trace ++ [.opEnd s status st.clock] }

/-- `TelemetryLogger.log_sensor`: INSERT one sensor reading keyed to the
active session.  The `none` branch is unreachable in the orchestrator. -/
def TelemetryLogger.log_sensor (st : TelemetryLogger) (sensorType : String)
    (value : ℚ) (unit : String) : TelemetryLogger :=
  match st.sessionId with
  | none => st
  | some s =>
    { st with
      sensorReadings := st.sensorReadings ++ [⟨s, sensorType, st.clock, value, unit⟩]
      clock := st.clock + 1
      trace := st.trace ++ [.opSensor s sensorType] }

/-- `TelemetryLogger.log_command`: INSERT one actuator command keyed to the
active session. -/
def TelemetryLogger.log_command (st : TelemetryLogger) (actuatorType : String)
    (command : ℚ) (status : String) : TelemetryLogger :=
  match st.sessionId with
  | none => st
  | some s =>
    { st with
      actuatorCommands := st.actuatorCommands ++ [⟨s, actuatorType, st.clock, command, status⟩]
      clock := st.clock + 1
      trace := st.trace ++ [.opCommand s actuatorType] }

/-- `TelemetryLogger.log_event`: INSERT one event keyed to the active
session. -/
def TelemetryLogger.log_event (st : TelemetryLogger) (eventType : String)
    (severity : String) (message : String) : TelemetryLogger :=
  match st.sessionId with
  | none => st
  | some s =>
    { st with
      events := st.events ++ [⟨s, st.clock, eventType, severity, message⟩]
      clock := st.clock + 1
      trace := st.trace ++ [.opEvent s eventType] }

/-- Look up a session row by id. -/
def findSession (st : TelemetryLogger) (sid : Nat) : Option Session :=
  st.sessions.find? fun s => s.sid = sid

/-- `VARIANT_ID = 1` in `prog.py`. -/
def VARIANT_ID : Nat := 1

/-- `PIDController` state: gains plus previous error and integral
accumulator (both initialised to 0 in `prog.py`). -/
structure PIDController where
  kp : ℚ
  ki : ℚ
  kd : ℚ
  prev_error : ℚ
  integral : ℚ
  deriving Repr, DecidableEq

/-- `PIDController.update(error, dt)`: the integral accumulator is updated
first and the updated value feeds the output; the output is clamped to
[-1, 1]; `prev_error` is set to `error` before returning. -/
def PIDController.update (p : PIDController) (error : ℚ) (dt : ℚ) :
    ℚ × PIDController :=
  let integral := p.integral + error * dt
  let derivative := (error - p.prev_error) / dt
  let output := p.kp * error + p.ki * integral + p.kd * derivative
  (clamp (-1) 1 output,
   { p with integral := integral, prev_error := error })

/-- `IRLineSensor` state: channel count and per-channel white/black
calibration levels. -/
structure IRLineSensor where
  n : Nat
  white : List ℚ
  black : List ℚ
  deriving Repr, DecidableEq

/-- `IRLineSensor.__init__(n_sensors)`: white levels all 1.0, black all 0.0. -/
def IRLineSensor.init (nSensors : Nat) : IRLineSensor :=
  ⟨nSensors, List.replicate nSensors 1, List.replicate nSensors 0⟩

/-- `IRLineSensor.calibrate(white_levels, black_levels)`: each stored level is
the supplied reference perturbed by the sampled noise (`noiseW i` drawn from
[-0.05, 0), `noiseB i` from [0, 0.05]) and clamped to [0, 1]. -/
def IRLineSensor.calibrate (s : IRLineSensor) (whiteLevels blackLevels : List ℚ)
    (noiseW noiseB : Nat → ℚ) : IRLineSensor :=
  { s with
    white := (List.range s.n).map fun i => clamp01 (whiteLevels.getD i 0 + noiseW i)
    black := (List.range s.n).map fun i => clamp01 (blackLevels.getD i 0 + noiseB i) }

/-- `IRLineSensor.read_normalized(raw_values)`: per channel
`clamp01((raw[i] - black[i]) / (white[i] - black[i] + 1e-6))`.  The method
does not mutate the sensor, so it returns the sensor unchanged alongside the
result; `none` models the `IndexError` Python raises when any indexed list is
shorter than `n`. -/
def IRLineSensor.read_normalized (s : IRLineSensor) (raw : List ℚ) :
    IRLineSensor × Option (List ℚ) :=
  (s,
    if s.n ≤ raw.length ∧ s.n ≤ s.white.length ∧ s.n ≤ s.black.length then
      some ((List.range s.n).map fun i =>
        let w := s.white.getD i 0
        let b := s.black.getD i 0
        clamp01 ((raw.getD i 0 - b) / (w - b + 1 / 1000000)))
    else none)

/-- `MotorPair.drive(base_speed, diff)`: clamp both wheel commands to
[-1, 1], log them locally as `Motor_L` / `Motor_R` with status `sent`,
return the pair. -/
def MotorPair.drive (st : TelemetryLogger) (base_speed diff : ℚ) :
    ℚ × ℚ × TelemetryLogger :=
  let left := clamp (-1) 1 (base_speed - diff)
  let right := clamp (-1) 1 (base_speed + diff)
  let st1 := st.log_command "Motor_L" left "sent"
  let st2 := st1.log_command "Motor_R" right "sent"
  (left, right, st2)

/-- `TrackState.update(normalized_values)`: mean of the values, on-track iff
the mean is in [0.2, 0.8] inclusive.  `none` models the `ZeroDivisionError`
Python raises on an empty input (`sum/len` with `len == 0`). -/
def TrackState.update (vals : List ℚ) : Option Bool :=
  if vals.length = 0 then none
  else
    let avg := vals.sum / (vals.length : ℚ)
    some (decide ((2 / 10 : ℚ) ≤ avg ∧ avg ≤ 8 / 10))

/-- One HTTP request issued to the remote telemetry collector. -/
inductive RemoteReq where
  | create (variantId : Nat)
  | sensor (sid : Nat) (sensorType : String) (value : ℚ) (unit : String)
  | actuator (sid : Nat) (actuatorType : String) (command : ℚ) (status : String)
  | event (sid : Nat) (eventType : String) (severity : String) (message : String)
  | endReq (sid : Nat) (status : String)
  deriving Repr, DecidableEq

/-- `http_create_session()`: the POST is always attempted; `outcome` is the
oracle for the reply — `some id` when the call returns an `ok` response,
`none` when it fails, times out, or returns non-success (all of which make
the Python function return `None`). -/
def http_create_session (r : List RemoteReq) (variantId : Nat)
    (outcome : Option Nat) : Option Nat × List RemoteReq :=
  (outcome, r ++ [.create variantId])

/-- `http_log_sensor(sid, ...)`: returns immediately doing nothing when
`sid is None`; otherwise issues the POST (any failure is swallowed). -/
def http_log_sensor (r : List RemoteReq) (sid : Option Nat)
    (sensorType : String) (value : ℚ) (unit : String) : List RemoteReq :=
  match sid with
  | none => r
  | some s => r ++ [.sensor s sensorType value unit]

/-- `http_log_actuator(sid, ...)`: no-op when `sid is None`. -/
def http_log_actuator (r : List RemoteReq) (sid : Option Nat)
    (actuatorType : String) (command : ℚ) (status : String) : List RemoteReq :=
  match sid with
  | none => r
  | some s => r ++ [.actuator s actuatorType command status]

/-- `http_log_event(sid, ...)`: no-op when `sid is None`. -/
def http_log_event (r : List RemoteReq) (sid : Option Nat)
    (eventType : String) (severity : String) (message : String) : List RemoteReq :=
  match sid with
  | none => r
  | some s => r ++ [.event s eventType severity message]

/-- `http_end_session(sid, status)`: no-op when `sid is None`. -/
def http_end_session (r : List RemoteReq) (sid : Option Nat) (status : String) :
    List RemoteReq :=
  match sid with
  | none => r
  | some s => r ++ [.endReq s status]

/-- The per-step jitter of `follow_line`:
`[max(0, min(1, v + random.uniform(-0.05, 0.05))) for v in raw]`, with the
sampled noise supplied by the oracle `noiseRow`. -/
def noisyFrame (noiseRow : Nat → ℚ) (raw : List ℚ) : List ℚ :=
  (List.range raw.length).map fun i => clamp01 (raw.getD i 0 + noiseRow i)

/-- The lateral-error computation of `follow_line`:
`position = sum((i - (n-1)/2) * (1 - norm[i]) for i in range(n))` and
`error = position / ((n-1)/2) if (n - 1) != 0 else 0.0` (the guard is on the
Python integer `n - 1`). -/
def computeError (n : Nat) (norm : List ℚ) : ℚ :=
  let position :=
    ((List.range n).map fun (i : Nat) =>
      ((i : ℚ) - ((n : ℚ) - 1) / 2) * (1 - norm.getD i 0)).sum
  if (n : Int) - 1 ≠ 0 then position / (((n : ℚ) - 1) / 2) else 0

/-- The spec's wording of the lateral-error rule: weighted sum normalized by
`(N-1)/2`, with `error := 0 if N == 1`. -/
def errorSpec (n : Nat) (norm : List ℚ) : ℚ :=
  if n = 1 then 0
  else
    (((List.range n).map fun (i : Nat) =>
        ((i : ℚ) - ((n : ℚ) - 1) / 2) * (1 - norm.getD i 0)).sum)
      / (((n : ℚ) - 1) / 2)

/-- Loop state carried across the steps of `follow_line`. -/
structure RunAcc where
  pid : PIDController
  st : TelemetryLogger
  remote : List RemoteReq
  onCount : Nat
  offCount : Nat
  deriving Repr

/-- Result of running (a suffix of) the step loop: normal termination, or a
Python exception carrying the state at the raise point. -/
inductive RunRes where
  | ok (acc : RunAcc)
  | exn (acc : RunAcc) (msg : String)
  deriving Repr

/-- The `for i, val in enumerate(norm)` loop of `follow_line`: log each
normalized channel locally as `IR_{i+1}` and forward it to the remote sink. -/
def logSensors (rsid : Option Nat) :
    List ℚ → Nat → TelemetryLogger → List RemoteReq → TelemetryLogger × List RemoteReq
  | [], _, st, r => (st, r)
  | v :: rest, i, st, r =>
    let name := "IR_" ++ toString (i + 1)
    let st1 := st.log_sensor name v "норм"
    let r1 := http_log_sensor r rsid name v "норм"
    logSensors rsid rest (i + 1) st1 r1

/-- One iteration of the step loop of `follow_line`.  An `IndexError` from
`read_normalized` (frame shorter than `n`) raises before any telemetry is
written; a `ZeroDivisionError` from `TrackState.update` (`n == 0`) raises
after the sensor logs and the PID update. -/
def runStep (sensor : IRLineSensor) (rsid : Option Nat) (noiseRow : Nat → ℚ)
    (step : Nat) (raw : List ℚ) (acc : RunAcc) : RunRes :=
  let noisy := noisyFrame noiseRow raw
  match (sensor.read_normalized noisy).2 with
  | none => .exn acc "IndexError"
  | some norm =>
    let (st1, r1) := logSensors rsid norm 0 acc.st acc.remote
    let error := computeError sensor.n norm
    let (pidOut, pid1) := acc.pid.update error (1 / 10)
    match TrackState.update norm with
    | none => .exn { acc with pid := pid1, st := st1, remote := r1 } "ZeroDivisionError"
    | some onTrack =>
      let msg := "Сошёл с линии на шаге " ++ toString step
      let (onC, offC, st2, r2) :=
        if onTrack then (acc.onCount + 1, acc.offCount, st1, r1)
        else (acc.onCount, acc.offCount + 1,
              st1.log_event "line_tracking" "warning" msg,
              http_log_event r1 rsid "line_tracking" "warning" msg)
      let (left, right, st3) := MotorPair.drive st2 (1 / 2) pidOut
      let r3 := http_log_actuator r2 rsid "Motor_L" left "sent"
      let r4 := http_log_actuator r3 rsid "Motor_R" right "sent"
      .ok { pid := pid1, st := st3, remote := r4, onCount := onC, offCount := offC }

/-- The `for step, raw in enumerate(measurements, 1)` loop of `follow_line`.
The step index `step` starts at 1; the noise oracle is indexed by step then
channel. -/
def runSteps (sensor : IRLineSensor) (rsid : Option Nat) (noise : Nat → Nat → ℚ) :
    List (List ℚ) → Nat → RunAcc → RunRes
  | [], _, acc => .ok acc
  | raw :: rest, step, acc =>
    match runStep sensor rsid (noise step) step raw acc with
    | .ok acc1 => runSteps sensor rsid noise rest (step + 1) acc1
    | .exn acc1 msg => .exn acc1 msg

/-- `LineFollowerRobot` state.  `MotorPair` and `TrackState` hold no data. -/
structure LineFollowerRobot where
  sensor : IRLineSensor
  pid : PIDController
  deriving Repr

/-- `LineFollowerRobot.__init__(n_sensors)`: PID gains kp=0.8, ki=0.0,
kd=0.2. -/
def LineFollowerRobot.init (nSensors : Nat) : LineFollowerRobot :=
  { sensor := IRLineSensor.init nSensors
    pid := { kp := 8 / 10, ki := 0, kd := 2 / 10, prev_error := 0, integral := 0 } }

/-- Result of one `follow_line` run. -/
structure FollowResult where
  robot : LineFollowerRobot
  st : TelemetryLogger
  remote : List RemoteReq
  deriving Repr

/-- `LineFollowerRobot.follow_line(measurements, label)`.  `remoteOutcome` is
the oracle for the remote session-creation reply; `noise` the per-step,
per-channel jitter oracle.  The `try`/`except Exception` around the step loop
is modelled by the two branches on `runSteps`' result. -/
def LineFollowerRobot.follow_line (robot : LineFollowerRobot)
    (st : TelemetryLogger) (r : List RemoteReq) (remoteOutcome : Option Nat)
    (noise : Nat → Nat → ℚ) (measurements : List (List ℚ)) (label : String) :
    FollowResult :=
  let (_, st1) := st.start_session VARIANT_ID
  let (rsid, r1) := http_create_session r VARIANT_ID remoteOutcome
  let (st2, r2) :=
    match rsid with
    | none =>
      (st1.log_event "server" "warning"
        "Не удалось подключиться к серверу телеметрии; записи будут только локально", r1)
    | some s =>
      (st1, http_log_event r1 (some s) "scenario_start" "info"
        ("Начало сценария: " ++ label))
  let st3 := st2.log_event "scenario_start_local" "info"
    ("Начало сценария локально: " ++ label)
  match runSteps robot.sensor rsid noise measurements 1 ⟨robot.pid, st3, r2, 0, 0⟩ with
  | .ok acc =>
    let endMsg := "Сценарий завершён. Сошёл " ++ toString acc.offCount ++ " раз(а)."
    let st4 := acc.st.log_event "scenario_end" "info" endMsg
    let r3 := http_log_event acc.remote rsid "scenario_end" "info" endMsg
    let st5 := st4.end_session "completed"
    let r4 := http_end_session r3 rsid "completed"
    ⟨{ robot with pid := acc.pid }, st5, r4⟩
  | .exn acc msg =>
    let errMsg := "Ошибка сценария: " ++ msg
    let st4 := acc.st.log_event "exception" "error" errMsg
    let r3 := http_log_event acc.remote rsid "exception" "error" errMsg
    let st5 := st4.end_session "error"
    let r4 := http_end_session r3 rsid "error"
    ⟨{ robot with pid := acc.pid }, st5, r4⟩

/-- `LineFollowerRobot.calibrate()`: local-only session around one sensor
calibration pass with all-white / all-black reference levels. -/
def LineFollowerRobot.calibrate (robot : LineFollowerRobot)
    (st : TelemetryLogger) (noiseW noiseB : Nat → ℚ) :
    LineFollowerRobot × TelemetryLogger :=
  let (_, st1) := st.start_session VARIANT_ID
  let sensor1 := robot.sensor.calibrate (List.replicate robot.sensor.n 1)
    (List.replicate robot.sensor.n 0) noiseW noiseB
  let st2 := st1.log_event "calibration" "info" "Калибровка завершена"
  let st3 := st2.end_session "completed"
  ({ robot with sensor := sensor1 }, st3)

/-- The per-step sequence of local sensor-record identifiers, `IR_1..IR_n`. -/
def sensorNames (n : Nat) : List String :=
  (List.range n).map fun i => "IR_" ++ toString (i + 1)

/-- An empty logger state (fresh database, no active session). -/
def emptyLogger : TelemetryLogger := ⟨none, [], [], [], [], 0, 1, []⟩

/-- The loop state reached by a (possibly failing) run of the step loop. -/
def RunRes.acc : RunRes → RunAcc
  | .ok a => a
  | .exn a _ => a

/-- The sensor-record identifiers appended by one `logSensors` call started
at index `i`: `IR_{i+1}, IR_{i+2}, ...`, one per normalized channel. -/
def sensorBatchNames (i : Nat) : List ℚ → List String
  | [] => []
  | _ :: rest => ("IR_" ++ toString (i + 1)) :: sensorBatchNames (i + 1) rest

/-- The condition under which the step loop of `follow_line` raises no
exception: either there are no frames, or the sensor count is at least 1,
the calibration lists are long enough, and every frame is long enough to
index. -/
def scenarioOk (sensor : IRLineSensor) (ms : List (List ℚ)) : Prop :=
  ms = [] ∨ (1 ≤ sensor.n ∧ sensor.n ≤ sensor.white.length ∧
    sensor.n ≤ sensor.black.length ∧ ∀ raw ∈ ms, sensor.n ≤ raw.length)

/-- The end-to-end test frame `[0.9, 0.6, 0.2, 0.6, 0.9]`. -/
def frameC8 : List ℚ := [9 / 10, 6 / 10, 2 / 10, 6 / 10, 9 / 10]

/-- The normalized vector the control loop computes for `frameC8` with noise
disabled, from the fresh (all-white / all-black) calibration. -/
def normC8 : List ℚ :=
  (((IRLineSensor.init 5).read_normalized (noisyFrame (fun _ => 0) frameC8)).2).getD []

/-- The Track-State arithmetic mean of that normalized vector. -/
def meanC8 : ℚ := normC8.sum / (normC8.length : ℚ)

/-! ## Helper lemmas -/

theorem clamp01_nonneg (x : ℚ) : 0 ≤ clamp01 x := le_max_left 0 _

theorem clamp01_le_one (x : ℚ) : clamp01 x ≤ 1 :=
  max_le zero_le_one (min_le_left 1 x)

theorem clamp_le_hi (lo hi x : ℚ) (h : lo ≤ hi) : clamp lo hi x ≤ hi :=
  max_le h (min_le_left hi x)

theorem lo_le_clamp (lo hi x : ℚ) : lo ≤ clamp lo hi x := le_max_left lo _

theorem getD_map_range (n : Nat) (f : Nat → ℚ) (i : Nat) (h : i < n) :
    ((List.range n).map f).getD i 0 = f i := by
  have hlt : i < ((List.range n).map f).length := by simp [h]
  rw [List.getD_eq_getElem _ _ hlt]
  simp

theorem log_sensor_eq (st : TelemetryLogger) (s : Nat) (hs : st.sessionId = some s)
    (ty : String) (v : ℚ) (u : String) :
    st.log_sensor ty v u =
      { st with
        sensorReadings := st.sensorReadings ++ [⟨s, ty, st.clock, v, u⟩]
        clock := st.clock + 1
        trace := st.trace ++ [.opSensor s ty] } := by
  unfold TelemetryLogger.log_sensor
  rw [hs]

theorem log_command_eq (st : TelemetryLogger) (s : Nat) (hs : st.sessionId = some s)
    (ty : String) (c : ℚ) (u : String) :
    st.log_command ty c u =
      { st with
        actuatorCommands := st.actuatorCommands ++ [⟨s, ty, st.clock, c, u⟩]
        clock := st.clock + 1
        trace := st.trace ++ [.opCommand s ty] } := by
  unfold TelemetryLogger.log_command
  rw [hs]

theorem log_event_eq (st : TelemetryLogger) (s : Nat) (hs : st.sessionId = some s)
    (ty sev msg : String) :
    st.log_event ty sev msg =
      { st with
        events := st.events ++ [⟨s, st.clock, ty, sev, msg⟩]
        clock := st.clock + 1
        trace := st.trace ++ [.opEvent s ty] } := by
  unfold TelemetryLogger.log_event
  rw [hs]

theorem end_session_eq (st : TelemetryLogger) (s : Nat) (hs : st.sessionId = some s)
    (status : String) :
    st.end_session status =
      { st with
        sessions := st.sessions.map fun sess =>
          if sess.sid = s then { sess with endedAt := some st.clock, status := status }
          else sess
        clock := st.clock + 1
        trace := st.trace ++ [.opEnd s status st.clock] } := by
  unfold TelemetryLogger.end_session
  rw [hs]

/-! ## Claim theorems: pure components -/

/-- C3: for every step with `N` sensors and normalized vector `norm`, the
lateral position error computed by `follow_line` equals the spec's weighted
sum `Σ_i (i − (N−1)/2)·(1 − norm[i])` divided by `(N−1)/2`, equals `0` when
`N = 1`, and the divisor `(N−1)/2` is nonzero for every `N ≥ 2`, so no
division by zero occurs for any `N ≥ 1`. -/
theorem computeError_matches_spec (n : Nat) (norm : List ℚ) (hn : 1 ≤ n) :
    computeError n norm = errorSpec n norm ∧
    (n = 1 → computeError n norm = 0) ∧
    (2 ≤ n → ((n : ℚ) - 1) / 2 ≠ 0) := by
  refine ⟨?_, ?_, ?_⟩
  · unfold computeError errorSpec
    by_cases h : n = 1
    · subst h; norm_num
    · have hne : (n : Int) - 1 ≠ 0 := by omega
      simp only [hne, ne_eq, not_false_eq_true, if_true, if_neg h]
  · intro h; subst h; unfold computeError; norm_num
  · intro h2 hc
    have h2q : (2 : ℚ) ≤ (n : ℚ) := by exact_mod_cast h2
    rw [div_eq_zero_iff] at hc
    rcases hc with hc | hc
    · linarith
    · norm_num at hc

theorem computeError_matches_spec_witness :
    computeError 2 [] = errorSpec 2 [] ∧
    (2 = 1 → computeError 2 [] = 0) ∧
    (2 ≤ 2 → ((2 : ℚ) - 1) / 2 ≠ 0) :=
  computeError_matches_spec 2 [] (by norm_num)

/-- C4: for a sensor whose calibration lists have the declared length and a
raw vector long enough to index, `read_normalized` leaves the sensor state
unchanged and returns, for each channel `i`, exactly
`clamp01((raw[i] − black[i]) / (white[i] − black[i] + 1e-6))`, a value always
in `[0, 1]` (including when `white[i] = black[i]`). -/
theorem read_normalized_formula (s : IRLineSensor) (raw : List ℚ)
    (hw : s.white.length = s.n) (hb : s.black.length = s.n)
    (hr : s.n ≤ raw.length) :
    (s.read_normalized raw).1 = s ∧
    ∃ l, (s.read_normalized raw).2 = some l ∧ l.length = s.n ∧
      ∀ i, i < s.n →
        l.getD i 0 = clamp01 ((raw.getD i 0 - s.black.getD i 0) /
          (s.white.getD i 0 - s.black.getD i 0 + 1 / 1000000)) ∧
        0 ≤ l.getD i 0 ∧ l.getD i 0 ≤ 1 := by
  refine ⟨rfl, ?_⟩
  have hcond : s.n ≤ raw.length ∧ s.n ≤ s.white.length ∧ s.n ≤ s.black.length :=
    ⟨hr, le_of_eq hw.symm, le_of_eq hb.symm⟩
  have h2 : (s.read_normalized raw).2 = some ((List.range s.n).map fun i =>
      clamp01 ((raw.getD i 0 - s.black.getD i 0) /
        (s.white.getD i 0 - s.black.getD i 0 + 1 / 1000000))) := by
    unfold IRLineSensor.read_normalized
    rw [if_pos hcond]
  refine ⟨_, h2, by simp, ?_⟩
  intro i hi
  rw [getD_map_range _ _ _ hi]
  exact ⟨rfl, clamp01_nonneg _, clamp01_le_one _⟩

theorem read_normalized_formula_witness :
    ((IRLineSensor.init 1).read_normalized [0]).1 = IRLineSensor.init 1 ∧
    ∃ l, ((IRLineSensor.init 1).read_normalized [0]).2 = some l ∧
      l.length = (IRLineSensor.init 1).n ∧
      ∀ i, i < (IRLineSensor.init 1).n →
        l.getD i 0 = clamp01 ((([0] : List ℚ).getD i 0 - (IRLineSensor.init 1).black.getD i 0) /
          ((IRLineSensor.init 1).white.getD i 0 - (IRLineSensor.init 1).black.getD i 0 + 1 / 1000000)) ∧
        0 ≤ l.getD i 0 ∧ l.getD i 0 ≤ 1 :=
  read_normalized_formula (IRLineSensor.init 1) [0] (by simp [IRLineSensor.init])
    (by simp [IRLineSensor.init]) (by simp [IRLineSensor.init])

/-- C5: for every error and every `dt > 0`, `PIDController.update` sets
`integral := integral + error·dt`, returns
`kp·error + ki·integral + kd·(error − prev_error)/dt` (with the updated
integral) clamped to `[-1, 1]`, then sets `prev_error := error`; the gains
are untouched and the returned value always lies in `[-1, 1]`. -/
theorem pid_update_formula (p : PIDController) (error dt : ℚ) (_hdt : 0 < dt) :
    (p.update error dt).2.integral = p.integral + error * dt ∧
    (p.update error dt).2.prev_error = error ∧
    (p.update error dt).2.kp = p.kp ∧
    (p.update error dt).2.ki = p.ki ∧
    (p.update error dt).2.kd = p.kd ∧
    (p.update error dt).1 =
      clamp (-1) 1 (p.kp * error + p.ki * (p.integral + error * dt) +
        p.kd * ((error - p.prev_error) / dt)) ∧
    -1 ≤ (p.update error dt).1 ∧ (p.update error dt).1 ≤ 1 :=
  ⟨rfl, rfl, rfl, rfl, rfl, rfl, lo_le_clamp _ _ _, clamp_le_hi _ _ _ (by norm_num)⟩

theorem pid_update_formula_witness :
    (((LineFollowerRobot.init 5).pid.update 3 (1 / 10)).2.integral =
      (LineFollowerRobot.init 5).pid.integral + 3 * (1 / 10)) ∧
    (((LineFollowerRobot.init 5).pid.update 3 (1 / 10)).2.prev_error = 3) ∧
    (((LineFollowerRobot.init 5).pid.update 3 (1 / 10)).2.kp = (LineFollowerRobot.init 5).pid.kp) ∧
    (((LineFollowerRobot.init 5).pid.update 3 (1 / 10)).2.ki = (LineFollowerRobot.init 5).pid.ki) ∧
    (((LineFollowerRobot.init 5).pid.update 3 (1 / 10)).2.kd = (LineFollowerRobot.init 5).pid.kd) ∧
    (((LineFollowerRobot.init 5).pid.update 3 (1 / 10)).1 =
      clamp (-1) 1 ((LineFollowerRobot.init 5).pid.kp * 3 +
        (LineFollowerRobot.init 5).pid.ki * ((LineFollowerRobot.init 5).pid.integral + 3 * (1 / 10)) +
        (LineFollowerRobot.init 5).pid.kd * ((3 - (LineFollowerRobot.init 5).pid.prev_error) / (1 / 10)))) ∧
    (-1 ≤ ((LineFollowerRobot.init 5).pid.update 3 (1 / 10)).1) ∧
    (((LineFollowerRobot.init 5).pid.update 3 (1 / 10)).1 ≤ 1) :=
  pid_update_formula (LineFollowerRobot.init 5).pid 3 (1 / 10) (by norm_num)

/-- C6: `TrackState.update` returns "on track" exactly when the arithmetic
mean of the input lies in `[0.2, 0.8]` inclusive; in particular a mean of
exactly 0.2 or 0.8 is on track while 0.1999 or 0.8001 is off track. -/
theorem trackState_mean_boundaries :
    (∀ vals : List ℚ, vals ≠ [] →
      (TrackState.update vals = some true ↔
        (2 / 10 : ℚ) ≤ vals.sum / (vals.length : ℚ) ∧
          vals.sum / (vals.length : ℚ) ≤ 8 / 10)) ∧
    TrackState.update [2 / 10] = some true ∧
    TrackState.update [8 / 10] = some true ∧
    TrackState.update [1999 / 10000] = some false ∧
    TrackState.update [8001 / 10000] = some false := by
  refine ⟨?_, ?_, ?_, ?_, ?_⟩
  case _ =>
    intro vals hne
    have hlen : ¬ vals.length = 0 := by simpa using hne
    unfold TrackState.update
    rw [if_neg hlen]
    simp
  all_goals unfold TrackState.update
  all_goals norm_num

theorem trackState_mean_boundaries_witness :
    TrackState.update [1 / 2] = some true ↔
      (2 / 10 : ℚ) ≤ ([1 / 2] : List ℚ).sum / ((([1 / 2] : List ℚ).length : Nat) : ℚ) ∧
        ([1 / 2] : List ℚ).sum / ((([1 / 2] : List ℚ).length : Nat) : ℚ) ≤ 8 / 10 :=
  trackState_mean_boundaries.1 [1 / 2] (by simp)

/-- C8 counterexample: the Track-State mean of the normalized vector for the
end-to-end frame is `640000/1000001 ≈ 0.64`, not `0.46` as claimed — it is
not even within `0.17` of `0.46`. -/
theorem c8_mean_counterexample :
    meanC8 = 640000 / 1000001 ∧ meanC8 ≠ 46 / 100 ∧
      17 / 100 < |meanC8 - 46 / 100| := by
  have h : meanC8 = 640000 / 1000001 := by
    norm_num [meanC8, normC8, IRLineSensor.read_normalized, IRLineSensor.init,
      noisyFrame, frameC8, clamp01, List.range_succ]
  refine ⟨h, ?_, ?_⟩
  · rw [h]; norm_num
  · rw [h, abs_of_pos (by norm_num)]; norm_num

/-- C8 amended: with `N = 5`, white levels all 1.0, black levels all 0.0 and
noise disabled, the frame `[0.9, 0.6, 0.2, 0.6, 0.9]` yields normalized
values within `1e-6` of the frame itself, lateral error exactly 0, PID
output exactly 0 from fresh controller state, motor command pair exactly
`(0.5, 0.5)`, and Track-State mean `640000/1000001 ≈ 0.64` (not `0.46`),
classified on track. -/
theorem c8_end_to_end_amended :
    noisyFrame (fun _ => 0) frameC8 = frameC8 ∧
    ((IRLineSensor.init 5).read_normalized (noisyFrame (fun _ => 0) frameC8)).2 =
      some [900000 / 1000001, 600000 / 1000001, 200000 / 1000001,
            600000 / 1000001, 900000 / 1000001] ∧
    |(900000 / 1000001 : ℚ) - 9 / 10| ≤ 1 / 1000000 ∧
    |(600000 / 1000001 : ℚ) - 6 / 10| ≤ 1 / 1000000 ∧
    |(200000 / 1000001 : ℚ) - 2 / 10| ≤ 1 / 1000000 ∧
    computeError 5 normC8 = 0 ∧
    ((LineFollowerRobot.init 5).pid.update (computeError 5 normC8) (1 / 10)).1 = 0 ∧
    (MotorPair.drive emptyLogger (1 / 2)
      ((LineFollowerRobot.init 5).pid.update (computeError 5 normC8) (1 / 10)).1).1 = 1 / 2 ∧
    (MotorPair.drive emptyLogger (1 / 2)
      ((LineFollowerRobot.init 5).pid.update (computeError 5 normC8) (1 / 10)).1).2.1 = 1 / 2 ∧
    TrackState.update normC8 = some true ∧
    meanC8 = 640000 / 1000001 := by
  have hnorm : normC8 = [900000 / 1000001, 600000 / 1000001, 200000 / 1000001,
      600000 / 1000001, 900000 / 1000001] := by
    norm_num [normC8, IRLineSensor.read_normalized, IRLineSensor.init,
      noisyFrame, frameC8, clamp01, List.range_succ]
  have herr : computeError 5 normC8 = 0 := by
    rw [hnorm]
    norm_num [computeError, List.range_succ]
  have hpid : ((LineFollowerRobot.init 5).pid.update (computeError 5 normC8) (1 / 10)).1 = 0 := by
    rw [herr]
    norm_num [PIDController.update, LineFollowerRobot.init, clamp, min_def, max_def]
  refine ⟨?_, ?_, ?_, ?_, ?_, herr, hpid, ?_, ?_, ?_, ?_⟩
  · norm_num [noisyFrame, frameC8, clamp01, List.range_succ]
  · norm_num [IRLineSensor.read_normalized, IRLineSensor.init, noisyFrame, frameC8,
      clamp01, List.range_succ]
  · rw [abs_of_neg (by norm_num)]; norm_num
  · rw [abs_of_neg (by norm_num)]; norm_num
  · rw [abs_of_neg (by norm_num)]; norm_num
  · rw [hpid]; norm_num [MotorPair.drive, clamp, min_def, max_def]
  · rw [hpid]; norm_num [MotorPair.drive, clamp, min_def, max_def, TelemetryLogger.log_command, emptyLogger]
  · rw [hnorm]; norm_num [TrackState.update]
  · rw [meanC8, hnorm]; norm_num

/-- C9: `end_session` sets the targeted session row's ended-at and status
but leaves the active-session binding and every other table of the logger
unchanged, so a subsequent `log_sensor` / `log_command` / `log_event` call
silently appends a record keyed to the now-ended session instead of
failing. -/
theorem end_session_keeps_binding (st : TelemetryLogger) (s : Nat)
    (status sty v_unit aty ety sev msg cstat : String) (v c : ℚ)
    (hs : st.sessionId = some s) :
    (st.end_session status).sessionId = some s ∧
    (st.end_session status).sensorReadings = st.sensorReadings ∧
    (st.end_session status).actuatorCommands = st.actuatorCommands ∧
    (st.end_session status).events = st.events ∧
    (st.end_session status).nextSessionId = st.nextSessionId ∧
    (st.end_session status).sessions = (st.sessions.map fun sess =>
      if sess.sid = s then { sess with endedAt := some st.clock, status := status }
      else sess) ∧
    (∀ sess ∈ st.sessions, sess.sid ≠ s → sess ∈ (st.end_session status).sessions) ∧
    ((st.end_session status).log_sensor sty v v_unit).sensorReadings =
      st.sensorReadings ++ [⟨s, sty, (st.end_session status).clock, v, v_unit⟩] ∧
    ((st.end_session status).log_command aty c cstat).actuatorCommands =
      st.actuatorCommands ++ [⟨s, aty, (st.end_session status).clock, c, cstat⟩] ∧
    ((st.end_session status).log_event ety sev msg).events =
      st.events ++ [⟨s, (st.end_session status).clock, ety, sev, msg⟩] := by
  have e1 : st.end_session status =
      { st with
        sessions := st.sessions.map fun sess =>
          if sess.sid = s then { sess with endedAt := some st.clock, status := status }
          else sess
        clock := st.clock + 1
        trace := st.trace ++ [.opEnd s status st.clock] } := by
    unfold TelemetryLogger.end_session
    rw [hs]
  refine ⟨by rw [e1]; exact hs, by rw [e1], by rw [e1], by rw [e1], by rw [e1],
    by rw [e1], ?_, ?_, ?_, ?_⟩
  · intro sess hmem hne
    rw [e1]
    exact List.mem_map.2 ⟨sess, hmem, by simp [hne]⟩
  · rw [e1]; unfold TelemetryLogger.log_sensor; rw [hs]
  · rw [e1]; unfold TelemetryLogger.log_command; rw [hs]
  · rw [e1]; unfold TelemetryLogger.log_event; rw [hs]

theorem end_session_keeps_binding_witness :
    ((emptyLogger.start_session 1).2.end_session "completed").sessionId = some 1 ∧
    ((emptyLogger.start_session 1).2.end_session "completed").sensorReadings =
      (emptyLogger.start_session 1).2.sensorReadings ∧
    ((emptyLogger.start_session 1).2.end_session "completed").actuatorCommands =
      (emptyLogger.start_session 1).2.actuatorCommands ∧
    ((emptyLogger.start_session 1).2.end_session "completed").events =
      (emptyLogger.start_session 1).2.events ∧
    ((emptyLogger.start_session 1).2.end_session "completed").nextSessionId =
      (emptyLogger.start_session 1).2.nextSessionId ∧
    ((emptyLogger.start_session 1).2.end_session "completed").sessions =
      ((emptyLogger.start_session 1).2.sessions.map fun sess =>
        if sess.sid = 1 then
          { sess with endedAt := some (emptyLogger.start_session 1).2.clock,
                      status := "completed" }
        else sess) ∧
    (∀ sess ∈ (emptyLogger.start_session 1).2.sessions, sess.sid ≠ 1 →
      sess ∈ ((emptyLogger.start_session 1).2.end_session "completed").sessions) ∧
    (((emptyLogger.start_session 1).2.end_session "completed").log_sensor "IR_1" 0 "v").sensorReadings =
      (emptyLogger.start_session 1).2.sensorReadings ++
        [⟨1, "IR_1", ((emptyLogger.start_session 1).2.end_session "completed").clock, 0, "v"⟩] ∧
    (((emptyLogger.start_session 1).2.end_session "completed").log_command "Motor_L" 0 "sent").actuatorCommands =
      (emptyLogger.start_session 1).2.actuatorCommands ++
        [⟨1, "Motor_L", ((emptyLogger.start_session 1).2.end_session "completed").clock, 0, "sent"⟩] ∧
    (((emptyLogger.start_session 1).2.end_session "completed").log_event "e" "info" "m").events =
      (emptyLogger.start_session 1).2.events ++
        [⟨1, ((emptyLogger.start_session 1).2.end_session "completed").clock, "e", "info", "m"⟩] :=
  end_session_keeps_binding (emptyLogger.start_session 1).2 1
    "completed" "IR_1" "v" "Motor_L" "e" "info" "m" "sent" 0 0 rfl

/-- C10: `TrackState.update` is total exactly on non-empty input — every
non-empty list yields a boolean while the empty list hits the `sum/len`
division by zero — and `read_normalized` always hands the orchestrator a
list of length `n`, so the step loop avoids the division by zero precisely
because the sensor count is at least 1. -/
theorem trackState_total_only_nonempty :
    (∀ vals : List ℚ, vals ≠ [] → (TrackState.update vals).isSome = true) ∧
    TrackState.update ([] : List ℚ) = none ∧
    (∀ (s : IRLineSensor) (raw l : List ℚ),
      (s.read_normalized raw).2 = some l → l.length = s.n) ∧
    (∀ (s : IRLineSensor) (raw l : List ℚ),
      (s.read_normalized raw).2 = some l → 1 ≤ s.n →
        (TrackState.update l).isSome = true) := by
  have hne : ∀ vals : List ℚ, vals ≠ [] → (TrackState.update vals).isSome = true := by
    intro vals h
    have hlen : ¬ vals.length = 0 := by simpa using h
    unfold TrackState.update
    rw [if_neg hlen]
    rfl
  have hlenr : ∀ (s : IRLineSensor) (raw l : List ℚ),
      (s.read_normalized raw).2 = some l → l.length = s.n := by
    intro s raw l h
    unfold IRLineSensor.read_normalized at h
    by_cases hc : s.n ≤ raw.length ∧ s.n ≤ s.white.length ∧ s.n ≤ s.black.length
    · rw [if_pos hc] at h
      simp at h
      subst h
      simp
    · rw [if_neg hc] at h
      simp at h
  refine ⟨hne, by simp [TrackState.update], hlenr, ?_⟩
  intro s raw l h h1
  apply hne
  have := hlenr s raw l h
  intro hnil
  rw [hnil] at this
  simp at this
  omega

theorem trackState_total_only_nonempty_witness :
    (TrackState.update [0] ).isSome = true :=
  trackState_total_only_nonempty.1 [0] (by simp)


/-- The per-channel sensor-logging loop appends exactly one local reading per
normalized channel (identifiers `IR_{i+1}`), touches no other table, performs
no session operation, and issues no remote request when the remote session is
absent. -/
theorem logSensors_spec (rsid : Option Nat) (s : Nat) (norm : List ℚ) :
    ∀ (i : Nat) (st : TelemetryLogger) (r : List RemoteReq),
      st.sessionId = some s →
      (logSensors rsid norm i st r).1.sessionId = some s ∧
      (logSensors rsid norm i st r).1.sessions = st.sessions ∧
      (logSensors rsid norm i st r).1.nextSessionId = st.nextSessionId ∧
      (logSensors rsid norm i st r).1.events = st.events ∧
      (logSensors rsid norm i st r).1.actuatorCommands = st.actuatorCommands ∧
      (logSensors rsid norm i st r).1.sensorReadings.map (fun rec => rec.sensorType) =
        st.sensorReadings.map (fun rec => rec.sensorType) ++ sensorBatchNames i norm ∧
      (∃ ext, (logSensors rsid norm i st r).1.trace = st.trace ++ ext ∧
        ∀ op ∈ ext, op.isSessionOp = false) ∧
      (rsid = none → (logSensors rsid norm i st r).2 = r) := by
  induction norm with
  | nil =>
    intro i st r hs
    exact ⟨hs, rfl, rfl, rfl, rfl, by simp [logSensors, sensorBatchNames],
      ⟨[], by simp [logSensors], by simp⟩, fun _ => rfl⟩
  | cons v rest ih =>
    intro i st r hs
    have e1 := log_sensor_eq st s hs ("IR_" ++ toString (i + 1)) v "норм"
    obtain ⟨h1, h2, h3, h4, h5, h6, ⟨ext, hext, hng⟩, h8⟩ :=
      ih (i + 1) (st.log_sensor ("IR_" ++ toString (i + 1)) v "норм")
        (http_log_sensor r rsid ("IR_" ++ toString (i + 1)) v "норм")
        (by rw [e1]; exact hs)
    refine ⟨h1, h2.trans (by rw [e1]), h3.trans (by rw [e1]), h4.trans (by rw [e1]),
      h5.trans (by rw [e1]), ?_, ?_, ?_⟩
    · rw [show (logSensors rsid (v :: rest) i st r) =
        logSensors rsid rest (i + 1) (st.log_sensor ("IR_" ++ toString (i + 1)) v "норм")
          (http_log_sensor r rsid ("IR_" ++ toString (i + 1)) v "норм") from rfl]
      rw [h6, e1]
      simp [sensorBatchNames]
    · refine ⟨.opSensor s ("IR_" ++ toString (i + 1)) :: ext, ?_, ?_⟩
      · rw [show (logSensors rsid (v :: rest) i st r) =
          logSensors rsid rest (i + 1) (st.log_sensor ("IR_" ++ toString (i + 1)) v "норм")
            (http_log_sensor r rsid ("IR_" ++ toString (i + 1)) v "норм") from rfl]
        rw [hext, e1]
        simp
      · intro op hop
        rcases List.mem_cons.1 hop with h | h
        · subst h; rfl
        · exact hng op h
    · intro hn
      subst hn
      exact (h8 rfl).trans rfl

/-- Concatenation preserves freedom from session operations. -/
theorem nonsession_append {e1 e2 : List TelOp}
    (h1 : ∀ op ∈ e1, op.isSessionOp = false) (h2 : ∀ op ∈ e2, op.isSessionOp = false) :
    ∀ op ∈ e1 ++ e2, op.isSessionOp = false := by
  intro op hop
  rcases List.mem_append.1 hop with h | h
  · exact h1 op h
  · exact h2 op h

/-- Closed form of the identifiers appended by one sensor batch. -/
theorem sensorBatchNames_eq (l : List ℚ) : ∀ i, sensorBatchNames i l =
    (List.range l.length).map fun j => "IR_" ++ toString (i + j + 1) := by
  induction l with
  | nil => intro i; rfl
  | cons v rest ih =>
    intro i
    rw [show sensorBatchNames i (v :: rest) =
      ("IR_" ++ toString (i + 1)) :: sensorBatchNames (i + 1) rest from rfl]
    rw [ih (i + 1)]
    rw [show (v :: rest).length = rest.length + 1 from rfl]
    rw [List.range_succ_eq_map]
    simp only [List.map_cons, List.map_map]
    congr 1
    apply List.map_congr_left
    intro a ha
    simp only [Function.comp]
    congr 2
    omega

/-- `MotorPair.drive` appends exactly the `Motor_L`/`Motor_R` command pair and
leaves every other table and the session binding unchanged. -/
theorem drive_spec (st : TelemetryLogger) (s : Nat) (hs : st.sessionId = some s)
    (base diff : ℚ) :
    (MotorPair.drive st base diff).2.2.sessionId = some s ∧
    (MotorPair.drive st base diff).2.2.sessions = st.sessions ∧
    (MotorPair.drive st base diff).2.2.nextSessionId = st.nextSessionId ∧
    (MotorPair.drive st base diff).2.2.events = st.events ∧
    (MotorPair.drive st base diff).2.2.sensorReadings = st.sensorReadings ∧
    (MotorPair.drive st base diff).2.2.actuatorCommands.map (fun rec => rec.actuatorType) =
      st.actuatorCommands.map (fun rec => rec.actuatorType) ++ ["Motor_L", "Motor_R"] ∧
    ∃ ext, (MotorPair.drive st base diff).2.2.trace = st.trace ++ ext ∧
      ∀ op ∈ ext, op.isSessionOp = false := by
  have e1 := log_command_eq st s hs "Motor_L" (clamp (-1) 1 (base - diff)) "sent"
  have e2 := log_command_eq (st.log_command "Motor_L" (clamp (-1) 1 (base - diff)) "sent") s
    (by rw [e1]; exact hs) "Motor_R" (clamp (-1) 1 (base + diff)) "sent"
  simp only [MotorPair.drive]
  rw [e2, e1]
  refine ⟨hs, rfl, rfl, rfl, rfl, by simp, ⟨[.opCommand s "Motor_L", .opCommand s "Motor_R"], by simp, ?_⟩⟩
  intro op hop
  rcases List.mem_cons.1 hop with h | h
  · subst h; rfl
  · rcases List.mem_cons.1 h with h2 | h2
    · subst h2; rfl
    · simp at h2

/-- A step whose frame is long enough (and sensor count positive) completes
normally: it appends one batch of `IR_1..IR_n` readings and one
`Motor_L`/`Motor_R` pair, adds no `server` event, performs no session
operation, and touches the remote sink only when a remote session exists. -/
theorem runStep_ok (sensor : IRLineSensor) (rsid : Option Nat) (noiseRow : Nat → ℚ)
    (step : Nat) (raw : List ℚ) (acc : RunAcc) (s : Nat)
    (hs : acc.st.sessionId = some s)
    (hn : 1 ≤ sensor.n) (hw : sensor.n ≤ sensor.white.length)
    (hb : sensor.n ≤ sensor.black.length) (hr : sensor.n ≤ raw.length) :
    ∃ acc1, runStep sensor rsid noiseRow step raw acc = .ok acc1 ∧
      acc1.st.sessionId = some s ∧
      acc1.st.sessions = acc.st.sessions ∧
      acc1.st.nextSessionId = acc.st.nextSessionId ∧
      acc1.st.events.filter (fun e => e.eventType = "server") =
        acc.st.events.filter (fun e => e.eventType = "server") ∧
      acc1.st.sensorReadings.map (fun rec => rec.sensorType) =
        acc.st.sensorReadings.map (fun rec => rec.sensorType) ++ sensorNames sensor.n ∧
      acc1.st.actuatorCommands.map (fun rec => rec.actuatorType) =
        acc.st.actuatorCommands.map (fun rec => rec.actuatorType) ++ ["Motor_L", "Motor_R"] ∧
      (∃ ext, acc1.st.trace = acc.st.trace ++ ext ∧ ∀ op ∈ ext, op.isSessionOp = false) ∧
      (rsid = none → acc1.remote = acc.remote) := by
  have hlen : (noisyFrame noiseRow raw).length = raw.length := by simp [noisyFrame]
  have hcond : sensor.n ≤ (noisyFrame noiseRow raw).length ∧
      sensor.n ≤ sensor.white.length ∧ sensor.n ≤ sensor.black.length :=
    ⟨by rw [hlen]; exact hr, hw, hb⟩
  obtain ⟨normList, hnoisy, hlen2⟩ : ∃ nl,
      (sensor.read_normalized (noisyFrame noiseRow raw)).2 = some nl ∧
      nl.length = sensor.n := by
    unfold IRLineSensor.read_normalized
    rw [if_pos hcond]
    exact ⟨_, rfl, by simp⟩
  obtain ⟨b, hb2⟩ : ∃ b, TrackState.update normList = some b := by
    unfold TrackState.update
    rw [if_neg (by omega)]
    exact ⟨_, rfl⟩
  obtain ⟨L1, L2, L3, L4, L5, L6, ⟨ext1, hext1, hng1⟩, L8⟩ :=
    logSensors_spec rsid s normList 0 acc.st acc.remote hs
  obtain ⟨st1, r1, hsr⟩ : ∃ a c, logSensors rsid normList 0 acc.st acc.remote = (a, c) :=
    ⟨_, _, rfl⟩
  rw [hsr] at L1 L2 L3 L4 L5 L6 L8 hext1
  have hbatch : sensorBatchNames 0 normList = sensorNames sensor.n := by
    rw [sensorBatchNames_eq, hlen2]
    unfold sensorNames
    apply List.map_congr_left
    intro a ha
    congr 2
    omega
  simp only [runStep, hnoisy, hb2, hsr]
  cases b
  case true =>
    rw [if_pos rfl]
    obtain ⟨D1, D2, D3, D4, D5, D6, ⟨ext2, hext2, hng2⟩⟩ :=
      drive_spec st1 s L1 (1 / 2)
        (acc.pid.update (computeError sensor.n normList) (1 / 10)).1
    refine ⟨_, rfl, D1, D2.trans L2, D3.trans L3, ?_, ?_, ?_, ?_, ?_⟩
    · rw [D4, L4]
    · rw [D5, L6, hbatch]
    · rw [D6, L5]
    · exact ⟨ext1 ++ ext2, by rw [hext2, hext1, List.append_assoc],
        nonsession_append hng1 hng2⟩
    · intro hnone
      subst hnone
      exact L8 rfl
  case false =>
    rw [if_neg (by simp)]
    have E := log_event_eq st1 s L1 "line_tracking" "warning"
      ("Сошёл с линии на шаге " ++ toString step)
    obtain ⟨D1, D2, D3, D4, D5, D6, ⟨ext2, hext2, hng2⟩⟩ :=
      drive_spec (st1.log_event "line_tracking" "warning"
          ("Сошёл с линии на шаге " ++ toString step)) s (by rw [E]; exact L1) (1 / 2)
        (acc.pid.update (computeError sensor.n normList) (1 / 10)).1
    refine ⟨_, rfl, D1, ?_, ?_, ?_, ?_, ?_, ?_, ?_⟩
    · rw [D2, E]; exact L2
    · rw [D3, E]; exact L3
    · rw [D4, E]
      simp only [List.filter_append]
      rw [L4]
      simp
    · rw [D5, E]
      simp only []
      rw [L6, hbatch]
    · rw [D6, E, L5]
    · refine ⟨ext1 ++ ([.opEvent s "line_tracking"] ++ ext2), ?_, ?_⟩
      · rw [hext2, E]
        simp only []
        rw [hext1]
        simp [List.append_assoc]
      · refine nonsession_append hng1 (nonsession_append ?_ hng2)
        intro op hop
        rcases List.mem_cons.1 hop with h | h
        · subst h; rfl
        · simp at h
    · intro hnone
      subst hnone
      exact L8 rfl

/-- Whatever its outcome, one step never touches the sessions table, the
active-session binding, or (when the remote session is absent) the remote
sink. -/
theorem runStep_frame (sensor : IRLineSensor) (rsid : Option Nat) (noiseRow : Nat → ℚ)
    (step : Nat) (raw : List ℚ) (acc : RunAcc) (s : Nat)
    (hs : acc.st.sessionId = some s) :
    (runStep sensor rsid noiseRow step raw acc).acc.st.sessionId = some s ∧
    (runStep sensor rsid noiseRow step raw acc).acc.st.sessions = acc.st.sessions ∧
    (runStep sensor rsid noiseRow step raw acc).acc.st.nextSessionId = acc.st.nextSessionId ∧
    (∃ ext, (runStep sensor rsid noiseRow step raw acc).acc.st.trace = acc.st.trace ++ ext ∧
      ∀ op ∈ ext, op.isSessionOp = false) ∧
    (rsid = none → (runStep sensor rsid noiseRow step raw acc).acc.remote = acc.remote) := by
  cases hread : (sensor.read_normalized (noisyFrame noiseRow raw)).2 with
  | none =>
    simp only [runStep, hread]
    exact ⟨hs, rfl, rfl, ⟨[], by simp [RunRes.acc], by simp⟩, fun _ => rfl⟩
  | some normList =>
    obtain ⟨L1, L2, L3, L4, L5, L6, ⟨ext1, hext1, hng1⟩, L8⟩ :=
      logSensors_spec rsid s normList 0 acc.st acc.remote hs
    obtain ⟨st1, r1, hsr⟩ : ∃ a c, logSensors rsid normList 0 acc.st acc.remote = (a, c) :=
      ⟨_, _, rfl⟩
    rw [hsr] at L1 L2 L3 L8 hext1
    cases hupd : TrackState.update normList with
    | none =>
      simp only [runStep, hread, hsr, hupd]
      exact ⟨L1, L2, L3, ⟨ext1, hext1, hng1⟩, fun hn => L8 hn⟩
    | some b =>
      simp only [runStep, hread, hsr, hupd]
      cases b
      case true =>
        rw [if_pos rfl]
        obtain ⟨D1, D2, D3, D4, D5, D6, ⟨ext2, hext2, hng2⟩⟩ :=
          drive_spec st1 s L1 (1 / 2)
            (acc.pid.update (computeError sensor.n normList) (1 / 10)).1
        refine ⟨D1, D2.trans L2, D3.trans L3,
          ⟨ext1 ++ ext2, by rw [RunRes.acc]; rw [hext2, hext1, List.append_assoc],
            nonsession_append hng1 hng2⟩, ?_⟩
        intro hnone
        subst hnone
        exact L8 rfl
      case false =>
        rw [if_neg (by simp)]
        have E := log_event_eq st1 s L1 "line_tracking" "warning"
          ("Сошёл с линии на шаге " ++ toString step)
        obtain ⟨D1, D2, D3, D4, D5, D6, ⟨ext2, hext2, hng2⟩⟩ :=
          drive_spec (st1.log_event "line_tracking" "warning"
              ("Сошёл с линии на шаге " ++ toString step)) s (by rw [E]; exact L1) (1 / 2)
            (acc.pid.update (computeError sensor.n normList) (1 / 10)).1
        refine ⟨D1, ?_, ?_, ?_, ?_⟩
        · rw [RunRes.acc] at *
          rw [D2, E]
          exact L2
        · rw [RunRes.acc] at *
          rw [D3, E]
          exact L3
        · refine ⟨ext1 ++ ([.opEvent s "line_tracking"] ++ ext2), ?_, ?_⟩
          · rw [RunRes.acc] at *
            rw [hext2, E]
            simp only []
            rw [hext1]
            simp [List.append_assoc]
          · refine nonsession_append hng1 (nonsession_append ?_ hng2)
            intro op hop
            rcases List.mem_cons.1 hop with h | h
            · subst h; rfl
            · simp at h
        · intro hnone
          subst hnone
          exact L8 rfl

/-- A step with a too-short frame or a zero sensor count raises. -/
theorem runStep_fail (sensor : IRLineSensor) (rsid : Option Nat) (noiseRow : Nat → ℚ)
    (step : Nat) (raw : List ℚ) (acc : RunAcc)
    (hbad : sensor.n = 0 ∨ sensor.white.length < sensor.n ∨
      sensor.black.length < sensor.n ∨ raw.length < sensor.n) :
    ∃ acc1 msg, runStep sensor rsid noiseRow step raw acc = .exn acc1 msg := by
  have hlen : (noisyFrame noiseRow raw).length = raw.length := by simp [noisyFrame]
  by_cases hc : sensor.n ≤ (noisyFrame noiseRow raw).length ∧
      sensor.n ≤ sensor.white.length ∧ sensor.n ≤ sensor.black.length
  · have hn0 : sensor.n = 0 := by
      obtain ⟨h1, h2, h3⟩ := hc
      rcases hbad with h | h | h | h
      · exact h
      · omega
      · omega
      · omega
    have hread : (sensor.read_normalized (noisyFrame noiseRow raw)).2 = some [] := by
      unfold IRLineSensor.read_normalized
      rw [if_pos hc]
      simp [hn0]
    have hupd : TrackState.update ([] : List ℚ) = none := rfl
    simp only [runStep, hread, hupd]
    exact ⟨_, _, rfl⟩
  · have hread : (sensor.read_normalized (noisyFrame noiseRow raw)).2 = none := by
      unfold IRLineSensor.read_normalized
      rw [if_neg hc]
    simp only [runStep, hread]
    exact ⟨_, _, rfl⟩

/-- The step loop over well-formed frames completes normally with exactly
`K` reading batches and `K` command pairs appended. -/
theorem runSteps_ok (sensor : IRLineSensor) (rsid : Option Nat) (noise : Nat → Nat → ℚ)
    (ms : List (List ℚ)) :
    ∀ (step : Nat) (acc : RunAcc) (s : Nat), acc.st.sessionId = some s →
    1 ≤ sensor.n → sensor.n ≤ sensor.white.length → sensor.n ≤ sensor.black.length →
    (∀ raw ∈ ms, sensor.n ≤ raw.length) →
    ∃ acc1, runSteps sensor rsid noise ms step acc = .ok acc1 ∧
      acc1.st.sessionId = some s ∧
      acc1.st.sessions = acc.st.sessions ∧
      acc1.st.nextSessionId = acc.st.nextSessionId ∧
      acc1.st.events.filter (fun e => e.eventType = "server") =
        acc.st.events.filter (fun e => e.eventType = "server") ∧
      acc1.st.sensorReadings.map (fun rec => rec.sensorType) =
        acc.st.sensorReadings.map (fun rec => rec.sensorType) ++
          List.flatten (List.replicate ms.length (sensorNames sensor.n)) ∧
      acc1.st.actuatorCommands.map (fun rec => rec.actuatorType) =
        acc.st.actuatorCommands.map (fun rec => rec.actuatorType) ++
          List.flatten (List.replicate ms.length ["Motor_L", "Motor_R"]) ∧
      (∃ ext, acc1.st.trace = acc.st.trace ++ ext ∧ ∀ op ∈ ext, op.isSessionOp = false) ∧
      (rsid = none → acc1.remote = acc.remote) := by
  induction ms with
  | nil =>
    intro step acc s hs _ _ _ _
    exact ⟨acc, rfl, hs, rfl, rfl, rfl, by simp, by simp,
      ⟨[], by simp [runSteps], by simp⟩, fun _ => rfl⟩
  | cons raw rest ih =>
    intro step acc s hs hn hw hb hlen
    obtain ⟨acc1, heq, S1, S2, S3, S4, S5, S6, ⟨e1, he1, hg1⟩, S8⟩ :=
      runStep_ok sensor rsid (noise step) step raw acc s hs hn hw hb (hlen raw (by simp))
    obtain ⟨acc2, heq2, T1, T2, T3, T4, T5, T6, ⟨e2, he2, hg2⟩, T8⟩ :=
      ih (step + 1) acc1 s S1 hn hw hb (fun r hr => hlen r (by simp [hr]))
    refine ⟨acc2, ?_, T1, T2.trans S2, T3.trans S3, T4.trans S4, ?_, ?_, ?_, ?_⟩
    · simp only [runSteps, heq]
      exact heq2
    · rw [T5, S5]
      simp [List.replicate_succ, List.append_assoc]
    · rw [T6, S6]
      simp [List.replicate_succ, List.append_assoc]
    · exact ⟨e1 ++ e2, by rw [he2, he1, List.append_assoc], nonsession_append hg1 hg2⟩
    · intro hnone
      rw [T8 hnone, S8 hnone]

/-- Whatever its outcome, the step loop never touches the sessions table or
the active-session binding. -/
theorem runSteps_frame (sensor : IRLineSensor) (rsid : Option Nat) (noise : Nat → Nat → ℚ)
    (ms : List (List ℚ)) :
    ∀ (step : Nat) (acc : RunAcc) (s : Nat), acc.st.sessionId = some s →
    (runSteps sensor rsid noise ms step acc).acc.st.sessionId = some s ∧
    (runSteps sensor rsid noise ms step acc).acc.st.sessions = acc.st.sessions ∧
    (runSteps sensor rsid noise ms step acc).acc.st.nextSessionId = acc.st.nextSessionId ∧
    (∃ ext, (runSteps sensor rsid noise ms step acc).acc.st.trace = acc.st.trace ++ ext ∧
      ∀ op ∈ ext, op.isSessionOp = false) ∧
    (rsid = none → (runSteps sensor rsid noise ms step acc).acc.remote = acc.remote) := by
  induction ms with
  | nil =>
    intro step acc s hs
    exact ⟨hs, rfl, rfl, ⟨[], by simp [runSteps, RunRes.acc], by simp⟩, fun _ => rfl⟩
  | cons raw rest ih =>
    intro step acc s hs
    obtain ⟨F1, F2, F3, ⟨e1, he1, hg1⟩, F5⟩ :=
      runStep_frame sensor rsid (noise step) step raw acc s hs
    cases hstep : runStep sensor rsid (noise step) step raw acc with
    | exn acc1 msg =>
      rw [hstep] at F1 F2 F3 he1 F5
      simp only [RunRes.acc] at F1 F2 F3 he1 F5
      simp only [runSteps, hstep, RunRes.acc]
      exact ⟨F1, F2, F3, ⟨e1, he1, hg1⟩, F5⟩
    | ok acc1 =>
      rw [hstep] at F1 F2 F3 he1 F5
      simp only [RunRes.acc] at F1 F2 F3 he1 F5
      obtain ⟨G1, G2, G3, ⟨e2, he2, hg2⟩, G5⟩ := ih (step + 1) acc1 s F1
      simp only [runSteps, hstep]
      exact ⟨G1, G2.trans F2, G3.trans F3,
        ⟨e1 ++ e2, by rw [he2, he1, List.append_assoc], nonsession_append hg1 hg2⟩,
        fun hn => (G5 hn).trans (F5 hn)⟩

/-- The step loop over a scenario containing a bad frame (or with a bad
sensor configuration) raises. -/
theorem runSteps_exn (sensor : IRLineSensor) (rsid : Option Nat) (noise : Nat → Nat → ℚ)
    (ms : List (List ℚ)) :
    ∀ (step : Nat) (acc : RunAcc) (s : Nat), acc.st.sessionId = some s →
    ms ≠ [] →
    (sensor.n = 0 ∨ sensor.white.length < sensor.n ∨ sensor.black.length < sensor.n ∨
      ∃ raw ∈ ms, raw.length < sensor.n) →
    ∃ acc1 msg, runSteps sensor rsid noise ms step acc = .exn acc1 msg := by
  induction ms with
  | nil =>
    intro _ _ _ _ hne _
    exact absurd rfl hne
  | cons raw rest ih =>
    intro step acc s hs _ hbad
    by_cases hfail : sensor.n = 0 ∨ sensor.white.length < sensor.n ∨
        sensor.black.length < sensor.n ∨ raw.length < sensor.n
    · obtain ⟨acc1, msg, heq⟩ := runStep_fail sensor rsid (noise step) step raw acc hfail
      refine ⟨acc1, msg, ?_⟩
      simp only [runSteps, heq]
    · push_neg at hfail
      obtain ⟨hn0, hwge, hbge, hrge⟩ := hfail
      obtain ⟨acc1, heq, S1, _⟩ :=
        runStep_ok sensor rsid (noise step) step raw acc s hs (by omega) (by omega)
          (by omega) (by omega)
      have hbad2 : sensor.n = 0 ∨ sensor.white.length < sensor.n ∨
          sensor.black.length < sensor.n ∨ ∃ r ∈ rest, r.length < sensor.n := by
        rcases hbad with h | h | h | ⟨r, hr, hlt⟩
        · omega
        · omega
        · omega
        · rcases List.mem_cons.1 hr with h | h
          · subst h; omega
          · exact Or.inr (Or.inr (Or.inr ⟨r, h, hlt⟩))
      have hrest_ne : rest ≠ [] := by
        rcases hbad2 with h | h | h | ⟨r, hr, _⟩
        · omega
        · omega
        · omega
        · exact List.ne_nil_of_mem hr
      obtain ⟨acc2, msg, heq2⟩ := ih (step + 1) acc1 s S1 hrest_ne hbad2
      refine ⟨acc2, msg, ?_⟩
      simp only [runSteps, heq]
      exact heq2

/-- Looking up a fresh id finds the newly appended session row. -/
theorem find_session_fresh (l : List Session) (sid : Nat) (s1 : Session)
    (hfresh : ∀ sess ∈ l, sess.sid ≠ sid) (h1 : s1.sid = sid) :
    (l ++ [s1]).find? (fun s => s.sid = sid) = some s1 := by
  rw [List.find?_append]
  have h0 : l.find? (fun s => s.sid = sid) = none :=
    List.find?_eq_none.2 (fun x hx => by simp [hfresh x hx])
  rw [h0]
  simp [h1]

/-- An end-session UPDATE targeting a fresh id leaves all other rows
unchanged. -/
theorem map_sessions_fresh (l : List Session) (sid : Nat) (endTs : Nat) (status : String)
    (hfresh : ∀ sess ∈ l, sess.sid ≠ sid) :
    l.map (fun sess => if sess.sid = sid then
      { sess with endedAt := some endTs, status := status } else sess) = l := by
  have h : ∀ sess ∈ l, (if sess.sid = sid then
      { sess with endedAt := some endTs, status := status } else sess) = id sess :=
    fun sess hs => by simp [hfresh sess hs]
  rw [List.map_congr_left h, List.map_id]

/-- `log_event` never changes the active-session binding. -/
theorem log_event_sessionId (st : TelemetryLogger) (ty sev msg : String) :
    (st.log_event ty sev msg).sessionId = st.sessionId := by
  unfold TelemetryLogger.log_event
  cases h : st.sessionId with
  | none => rw [h]
  | some s => rfl

/-- The closing sequence of a run (one summary event, then `end_session`)
appends exactly one event op and one end op, updates only the targeted
session row, and touches no reading or command. -/
theorem event_end_spec (st : TelemetryLogger) (sid : Nat) (hs : st.sessionId = some sid)
    (ty sev msg status : String) :
    ((st.log_event ty sev msg).end_session status).trace =
      st.trace ++ [TelOp.opEvent sid ty, TelOp.opEnd sid status (st.clock + 1)] ∧
    ((st.log_event ty sev msg).end_session status).sessions =
      st.sessions.map (fun sess => if sess.sid = sid then
        { sess with endedAt := some (st.clock + 1), status := status } else sess) ∧
    ((st.log_event ty sev msg).end_session status).sessionId = some sid ∧
    ((st.log_event ty sev msg).end_session status).events =
      st.events ++ [⟨sid, st.clock, ty, sev, msg⟩] ∧
    ((st.log_event ty sev msg).end_session status).sensorReadings = st.sensorReadings ∧
    ((st.log_event ty sev msg).end_session status).actuatorCommands = st.actuatorCommands := by
  have E := log_event_eq st sid hs ty sev msg
  have E2 := end_session_eq (st.log_event ty sev msg) sid (by rw [E]; exact hs) status
  rw [E2, E]
  exact ⟨by simp, by simp, hs, by simp, by simp, by simp⟩

/-- C2: for every run of `follow_line` (and of `calibrate`) the session
created by `start_session` is `running` with no ended-at; the run performs
exactly one `end_session` call, as the final telemetry operation, moving the
status to exactly one of `completed` (normal completion of all steps,
characterized by `scenarioOk`) or `error` (an exception during step
processing), with ended-at set at that same transition; no other operation
of the run touches the sessions table, so the status never transitions
backward and ended-at is never reset. -/
theorem session_lifecycle (robot : LineFollowerRobot) (st0 : TelemetryLogger)
    (r0 : List RemoteReq) (outcome : Option Nat) (noise : Nat → Nat → ℚ)
    (ms : List (List ℚ)) (label : String) (noiseW noiseB : Nat → ℚ)
    (stC : TelemetryLogger)
    (hfresh : ∀ sess ∈ st0.sessions, sess.sid ≠ st0.nextSessionId)
    (hfreshC : ∀ sess ∈ stC.sessions, sess.sid ≠ stC.nextSessionId) :
    findSession (st0.start_session VARIANT_ID).2 st0.nextSessionId =
      some ⟨st0.nextSessionId, VARIANT_ID, st0.clock, none, "running"⟩ ∧
    (∃ status endTs mid,
      (robot.follow_line st0 r0 outcome noise ms label).st.trace =
        st0.trace ++ (TelOp.opStart st0.nextSessionId st0.clock ::
          (mid ++ [TelOp.opEnd st0.nextSessionId status endTs])) ∧
      (∀ op ∈ mid, op.isSessionOp = false) ∧
      (status = "completed" ∨ status = "error") ∧
      (status = "completed" ↔ scenarioOk robot.sensor ms) ∧
      findSession (robot.follow_line st0 r0 outcome noise ms label).st st0.nextSessionId =
        some ⟨st0.nextSessionId, VARIANT_ID, st0.clock, some endTs, status⟩) ∧
    (∃ endTs,
      (robot.calibrate stC noiseW noiseB).2.trace =
        stC.trace ++ [TelOp.opStart stC.nextSessionId stC.clock,
          TelOp.opEvent stC.nextSessionId "calibration",
          TelOp.opEnd stC.nextSessionId "completed" endTs] ∧
      findSession (robot.calibrate stC noiseW noiseB).2 stC.nextSessionId =
        some ⟨stC.nextSessionId, VARIANT_ID, stC.clock, some endTs, "completed"⟩) := by
  refine ⟨?_, ?_, ?_⟩
  · unfold findSession TelemetryLogger.start_session
    exact find_session_fresh st0.sessions st0.nextSessionId _ hfresh rfl
  · cases outcome with
    | none =>
      have hfl : robot.follow_line st0 r0 none noise ms label =
          (match runSteps robot.sensor none noise ms 1
              ⟨robot.pid, ((st0.start_session VARIANT_ID).2.log_event "server" "warning"
                "Не удалось подключиться к серверу телеметрии; записи будут только локально").log_event
                "scenario_start_local" "info" ("Начало сценария локально: " ++ label),
                r0 ++ [RemoteReq.create VARIANT_ID], 0, 0⟩ with
            | .ok acc =>
              ⟨{ robot with pid := acc.pid },
                (acc.st.log_event "scenario_end" "info"
                  ("Сценарий завершён. Сошёл " ++ toString acc.offCount ++ " раз(а).")).end_session
                  "completed",
                http_end_session (http_log_event acc.remote none "scenario_end" "info"
                  ("Сценарий завершён. Сошёл " ++ toString acc.offCount ++ " раз(а).")) none
                  "completed"⟩
            | .exn acc msg =>
              ⟨{ robot with pid := acc.pid },
                (acc.st.log_event "exception" "error" ("Ошибка сценария: " ++ msg)).end_session
                  "error",
                http_end_session (http_log_event acc.remote none "exception" "error"
                  ("Ошибка сценария: " ++ msg)) none "error"⟩) := rfl
      rw [hfl]
      set acc0 : RunAcc := ⟨robot.pid, ((st0.start_session VARIANT_ID).2.log_event "server"
        "warning" "Не удалось подключиться к серверу телеметрии; записи будут только локально").log_event
        "scenario_start_local" "info" ("Начало сценария локально: " ++ label),
        r0 ++ [RemoteReq.create VARIANT_ID], 0, 0⟩ with hacc0
      have hPreId : acc0.st.sessionId = some st0.nextSessionId := by rw [hacc0]; rfl
      have hPreSessions : acc0.st.sessions = st0.sessions ++
          [⟨st0.nextSessionId, VARIANT_ID, st0.clock, none, "running"⟩] := by rw [hacc0]; rfl
      have hPreTrace : acc0.st.trace = st0.trace ++
          [TelOp.opStart st0.nextSessionId st0.clock,
           TelOp.opEvent st0.nextSessionId "server",
           TelOp.opEvent st0.nextSessionId "scenario_start_local"] := by
        rw [hacc0]
        simp [TelemetryLogger.start_session, TelemetryLogger.log_event, List.append_assoc]
      by_cases hok : scenarioOk robot.sensor ms
      · have hbundle : ∃ acc1, runSteps robot.sensor none noise ms 1 acc0 = .ok acc1 ∧
            acc1.st.sessionId = some st0.nextSessionId ∧
            acc1.st.sessions = acc0.st.sessions ∧
            (∃ ext, acc1.st.trace = acc0.st.trace ++ ext ∧
              ∀ op ∈ ext, op.isSessionOp = false) := by
          rcases hok with hms | ⟨hn, hw2, hb2, hlen⟩
          · subst hms
            exact ⟨acc0, rfl, hPreId, rfl, ⟨[], by simp, by simp⟩⟩
          · obtain ⟨acc1, heq, S1, S2, S3, S4, S5, S6, hT, S8⟩ :=
              runSteps_ok robot.sensor none noise ms 1 acc0 st0.nextSessionId
                hPreId hn hw2 hb2 hlen
            exact ⟨acc1, heq, S1, S2, hT⟩
        obtain ⟨acc1, heq, A1, A2, ⟨ext, hext, hng⟩⟩ := hbundle
        obtain ⟨T1, T2, T3, _, _, _⟩ := event_end_spec acc1.st st0.nextSessionId A1
          "scenario_end" "info"
          ("Сценарий завершён. Сошёл " ++ toString acc1.offCount ++ " раз(а).") "completed"
        have hTrace : (match runSteps robot.sensor none noise ms 1 acc0 with
            | .ok acc =>
              (⟨{ robot with pid := acc.pid },
                (acc.st.log_event "scenario_end" "info"
                  ("Сценарий завершён. Сошёл " ++ toString acc.offCount ++ " раз(а).")).end_session
                  "completed",
                http_end_session (http_log_event acc.remote none "scenario_end" "info"
                  ("Сценарий завершён. Сошёл " ++ toString acc.offCount ++ " раз(а).")) none
                  "completed"⟩ : FollowResult)
            | .exn acc msg =>
              ⟨{ robot with pid := acc.pid },
                (acc.st.log_event "exception" "error" ("Ошибка сценария: " ++ msg)).end_session
                  "error",
                http_end_session (http_log_event acc.remote none "exception" "error"
                  ("Ошибка сценария: " ++ msg)) none "error"⟩).st.trace =
            ((acc1.st.log_event "scenario_end" "info"
              ("Сценарий завершён. Сошёл " ++ toString acc1.offCount ++ " раз(а).")).end_session
              "completed").trace := by
          rw [heq]
        have hSess : (match runSteps robot.sensor none noise ms 1 acc0 with
            | .ok acc =>
              (⟨{ robot with pid := acc.pid },
                (acc.st.log_event "scenario_end" "info"
                  ("Сценарий завершён. Сошёл " ++ toString acc.offCount ++ " раз(а).")).end_session
                  "completed",
                http_end_session (http_log_event acc.remote none "scenario_end" "info"
                  ("Сценарий завершён. Сошёл " ++ toString acc.offCount ++ " раз(а).")) none
                  "completed"⟩ : FollowResult)
            | .exn acc msg =>
              ⟨{ robot with pid := acc.pid },
                (acc.st.log_event "exception" "error" ("Ошибка сценария: " ++ msg)).end_session
                  "error",
                http_end_session (http_log_event acc.remote none "exception" "error"
                  ("Ошибка сценария: " ++ msg)) none "error"⟩).st.sessions =
            ((acc1.st.log_event "scenario_end" "info"
              ("Сценарий завершён. Сошёл " ++ toString acc1.offCount ++ " раз(а).")).end_session
              "completed").sessions := by
          rw [heq]
        refine ⟨"completed", acc1.st.clock + 1,
          [TelOp.opEvent st0.nextSessionId "server",
           TelOp.opEvent st0.nextSessionId "scenario_start_local"] ++ ext ++
            [TelOp.opEvent st0.nextSessionId "scenario_end"],
          ?_, ?_, Or.inl rfl, iff_of_true rfl hok, ?_⟩
        · rw [hTrace, T1, hext, hPreTrace]
          simp [List.append_assoc]
        · intro op hop
          rcases List.mem_append.1 hop with h | h
          · rcases List.mem_append.1 h with h2 | h2
            · rcases List.mem_cons.1 h2 with h3 | h3
              · subst h3; rfl
              · rcases List.mem_cons.1 h3 with h4 | h4
                · subst h4; rfl
                · simp at h4
            · exact hng op h2
          · rcases List.mem_cons.1 h with h2 | h2
            · subst h2; rfl
            · simp at h2
        · unfold findSession
          rw [hSess, T2, A2, hPreSessions, List.map_append,
            map_sessions_fresh st0.sessions _ _ _ hfresh]
          have hmap : ([⟨st0.nextSessionId, VARIANT_ID, st0.clock, none, "running"⟩] :
              List Session).map (fun sess => if sess.sid = st0.nextSessionId then
                { sess with endedAt := some (acc1.st.clock + 1), status := "completed" }
              else sess) =
              [⟨st0.nextSessionId, VARIANT_ID, st0.clock, some (acc1.st.clock + 1),
                "completed"⟩] := by
            simp
          rw [hmap]
          exact find_session_fresh st0.sessions st0.nextSessionId _ hfresh rfl
      · have hmsne : ms ≠ [] := fun h => hok (Or.inl h)
        have hbad : robot.sensor.n = 0 ∨
            robot.sensor.white.length < robot.sensor.n ∨
            robot.sensor.black.length < robot.sensor.n ∨
            ∃ raw ∈ ms, raw.length < robot.sensor.n := by
          by_contra hc
          push_neg at hc
          obtain ⟨h1, h2, h3, h4⟩ := hc
          refine hok (Or.inr ⟨by omega, by omega, by omega, fun raw hr => ?_⟩)
          have := h4 raw hr
          omega
        obtain ⟨acc1, msg, heq⟩ :=
          runSteps_exn robot.sensor none noise ms 1 acc0 st0.nextSessionId hPreId hmsne hbad
        obtain ⟨F1, F2, F3, ⟨ext, hext, hng⟩, F5⟩ :=
          runSteps_frame robot.sensor none noise ms 1 acc0 st0.nextSessionId hPreId
        rw [heq] at F1 F2 hext
        simp only [RunRes.acc] at F1 F2 hext
        obtain ⟨T1, T2, T3, _, _, _⟩ := event_end_spec acc1.st st0.nextSessionId F1
          "exception" "error" ("Ошибка сценария: " ++ msg) "error"
        have hTrace : (match runSteps robot.sensor none noise ms 1 acc0 with
            | .ok acc =>
              (⟨{ robot with pid := acc.pid },
                (acc.st.log_event "scenario_end" "info"
                  ("Сценарий завершён. Сошёл " ++ toString acc.offCount ++ " раз(а).")).end_session
                  "completed",
                http_end_session (http_log_event acc.remote none "scenario_end" "info"
                  ("Сценарий завершён. Сошёл " ++ toString acc.offCount ++ " раз(а).")) none
                  "completed"⟩ : FollowResult)
            | .exn acc msg =>
              ⟨{ robot with pid := acc.pid },
                (acc.st.log_event "exception" "error" ("Ошибка сценария: " ++ msg)).end_session
                  "error",
                http_end_session (http_log_event acc.remote none "exception" "error"
                  ("Ошибка сценария: " ++ msg)) none "error"⟩).st.trace =
            ((acc1.st.log_event "exception" "error"
              ("Ошибка сценария: " ++ msg)).end_session "error").trace := by
          rw [heq]
        have hSess : (match runSteps robot.sensor none noise ms 1 acc0 with
            | .ok acc =>
              (⟨{ robot with pid := acc.pid },
                (acc.st.log_event "scenario_end" "info"
                  ("Сценарий завершён. Сошёл " ++ toString acc.offCount ++ " раз(а).")).end_session
                  "completed",
                http_end_session (http_log_event acc.remote none "scenario_end" "info"
                  ("Сценарий завершён. Сошёл " ++ toString acc.offCount ++ " раз(а).")) none
                  "completed"⟩ : FollowResult)
            | .exn acc msg =>
              ⟨{ robot with pid := acc.pid },
                (acc.st.log_event "exception" "error" ("Ошибка сценария: " ++ msg)).end_session
                  "error",
                http_end_session (http_log_event acc.remote none "exception" "error"
                  ("Ошибка сценария: " ++ msg)) none "error"⟩).st.sessions =
            ((acc1.st.log_event "exception" "error"
              ("Ошибка сценария: " ++ msg)).end_session "error").sessions := by
          rw [heq]
        refine ⟨"error", acc1.st.clock + 1,
          [TelOp.opEvent st0.nextSessionId "server",
           TelOp.opEvent st0.nextSessionId "scenario_start_local"] ++ ext ++
            [TelOp.opEvent st0.nextSessionId "exception"],
          ?_, ?_, Or.inr rfl, iff_of_false (by simp) hok, ?_⟩
        · rw [hTrace, T1, hext, hPreTrace]
          simp [List.append_assoc]
        · intro op hop
          rcases List.mem_append.1 hop with h | h
          · rcases List.mem_append.1 h with h2 | h2
            · rcases List.mem_cons.1 h2 with h3 | h3
              · subst h3; rfl
              · rcases List.mem_cons.1 h3 with h4 | h4
                · subst h4; rfl
                · simp at h4
            · exact hng op h2
          · rcases List.mem_cons.1 h with h2 | h2
            · subst h2; rfl
            · simp at h2
        · unfold findSession
          rw [hSess, T2, F2, hPreSessions, List.map_append,
            map_sessions_fresh st0.sessions _ _ _ hfresh]
          have hmap : ([⟨st0.nextSessionId, VARIANT_ID, st0.clock, none, "running"⟩] :
              List Session).map (fun sess => if sess.sid = st0.nextSessionId then
                { sess with endedAt := some (acc1.st.clock + 1), status := "error" }
              else sess) =
              [⟨st0.nextSessionId, VARIANT_ID, st0.clock, some (acc1.st.clock + 1),
                "error"⟩] := by
            simp
          rw [hmap]
          exact find_session_fresh st0.sessions st0.nextSessionId _ hfresh rfl
    | some rid =>
      have hfl : robot.follow_line st0 r0 (some rid) noise ms label =
          (match runSteps robot.sensor (some rid) noise ms 1
              ⟨robot.pid, (st0.start_session VARIANT_ID).2.log_event
                "scenario_start_local" "info" ("Начало сценария локально: " ++ label),
                http_log_event (r0 ++ [RemoteReq.create VARIANT_ID]) (some rid) "scenario_start"
                  "info" ("Начало сценария: " ++ label), 0, 0⟩ with
            | .ok acc =>
              ⟨{ robot with pid := acc.pid },
                (acc.st.log_event "scenario_end" "info"
                  ("Сценарий завершён. Сошёл " ++ toString acc.offCount ++ " раз(а).")).end_session
                  "completed",
                http_end_session (http_log_event acc.remote (some rid) "scenario_end" "info"
                  ("Сценарий завершён. Сошёл " ++ toString acc.offCount ++ " раз(а).")) (some rid)
                  "completed"⟩
            | .exn acc msg =>
              ⟨{ robot with pid := acc.pid },
                (acc.st.log_event "exception" "error" ("Ошибка сценария: " ++ msg)).end_session
                  "error",
                http_end_session (http_log_event acc.remote (some rid) "exception" "error"
                  ("Ошибка сценария: " ++ msg)) (some rid) "error"⟩) := rfl
      rw [hfl]
      set acc0 : RunAcc := ⟨robot.pid, (st0.start_session VARIANT_ID).2.log_event
        "scenario_start_local" "info" ("Начало сценария локально: " ++ label),
        http_log_event (r0 ++ [RemoteReq.create VARIANT_ID]) (some rid) "scenario_start"
          "info" ("Начало сценария: " ++ label), 0, 0⟩ with hacc0
      have hPreId : acc0.st.sessionId = some st0.nextSessionId := by rw [hacc0]; rfl
      have hPreSessions : acc0.st.sessions = st0.sessions ++
          [⟨st0.nextSessionId, VARIANT_ID, st0.clock, none, "running"⟩] := by rw [hacc0]; rfl
      have hPreTrace : acc0.st.trace = st0.trace ++
          [TelOp.opStart st0.nextSessionId st0.clock,
           TelOp.opEvent st0.nextSessionId "scenario_start_local"] := by
        rw [hacc0]
        simp [TelemetryLogger.start_session, TelemetryLogger.log_event, List.append_assoc]
      by_cases hok : scenarioOk robot.sensor ms
      · have hbundle : ∃ acc1, runSteps robot.sensor (some rid) noise ms 1 acc0 = .ok acc1 ∧
            acc1.st.sessionId = some st0.nextSessionId ∧
            acc1.st.sessions = acc0.st.sessions ∧
            (∃ ext, acc1.st.trace = acc0.st.trace ++ ext ∧
              ∀ op ∈ ext, op.isSessionOp = false) := by
          rcases hok with hms | ⟨hn, hw2, hb2, hlen⟩
          · subst hms
            exact ⟨acc0, rfl, hPreId, rfl, ⟨[], by simp, by simp⟩⟩
          · obtain ⟨acc1, heq, S1, S2, S3, S4, S5, S6, hT, S8⟩ :=
              runSteps_ok robot.sensor (some rid) noise ms 1 acc0 st0.nextSessionId
                hPreId hn hw2 hb2 hlen
            exact ⟨acc1, heq, S1, S2, hT⟩
        obtain ⟨acc1, heq, A1, A2, ⟨ext, hext, hng⟩⟩ := hbundle
        obtain ⟨T1, T2, T3, _, _, _⟩ := event_end_spec acc1.st st0.nextSessionId A1
          "scenario_end" "info"
          ("Сценарий завершён. Сошёл " ++ toString acc1.offCount ++ " раз(а).") "completed"
        have hTrace : (match runSteps robot.sensor (some rid) noise ms 1 acc0 with
            | .ok acc =>
              (⟨{ robot with pid := acc.pid },
                (acc.st.log_event "scenario_end" "info"
                  ("Сценарий завершён. Сошёл " ++ toString acc.offCount ++ " раз(а).")).end_session
                  "completed",
                http_end_session (http_log_event acc.remote (some rid) "scenario_end" "info"
                  ("Сценарий завершён. Сошёл " ++ toString acc.offCount ++ " раз(а).")) (some rid)
                  "completed"⟩ : FollowResult)
            | .exn acc msg =>
              ⟨{ robot with pid := acc.pid },
                (acc.st.log_event "exception" "error" ("Ошибка сценария: " ++ msg)).end_session
                  "error",
                http_end_session (http_log_event acc.remote (some rid) "exception" "error"
                  ("Ошибка сценария: " ++ msg)) (some rid) "error"⟩).st.trace =
            ((acc1.st.log_event "scenario_end" "info"
              ("Сценарий завершён. Сошёл " ++ toString acc1.offCount ++ " раз(а).")).end_session
              "completed").trace := by
          rw [heq]
        have hSess : (match runSteps robot.sensor (some rid) noise ms 1 acc0 with
            | .ok acc =>
              (⟨{ robot with pid := acc.pid },
                (acc.st.log_event "scenario_end" "info"
                  ("Сценарий завершён. Сошёл " ++ toString acc.offCount ++ " раз(а).")).end_session
                  "completed",
                http_end_session (http_log_event acc.remote (some rid) "scenario_end" "info"
                  ("Сценарий завершён. Сошёл " ++ toString acc.offCount ++ " раз(а).")) (some rid)
                  "completed"⟩ : FollowResult)
            | .exn acc msg =>
              ⟨{ robot with pid := acc.pid },
                (acc.st.log_event "exception" "error" ("Ошибка сценария: " ++ msg)).end_session
                  "error",
                http_end_session (http_log_event acc.remote (some rid) "exception" "error"
                  ("Ошибка сценария: " ++ msg)) (some rid) "error"⟩).st.sessions =
            ((acc1.st.log_event "scenario_end" "info"
              ("Сценарий завершён. Сошёл " ++ toString acc1.offCount ++ " раз(а).")).end_session
              "completed").sessions := by
          rw [heq]
        refine ⟨"completed", acc1.st.clock + 1,
          [TelOp.opEvent st0.nextSessionId "scenario_start_local"] ++ ext ++
            [TelOp.opEvent st0.nextSessionId "scenario_end"],
          ?_, ?_, Or.inl rfl, iff_of_true rfl hok, ?_⟩
        · rw [hTrace, T1, hext, hPreTrace]
          simp [List.append_assoc]
        · intro op hop
          rcases List.mem_append.1 hop with h | h
          · rcases List.mem_append.1 h with h2 | h2
            · rcases List.mem_cons.1 h2 with h3 | h3
              · subst h3; rfl
              · simp at h3
            · exact hng op h2
          · rcases List.mem_cons.1 h with h2 | h2
            · subst h2; rfl
            · simp at h2
        · unfold findSession
          rw [hSess, T2, A2, hPreSessions, List.map_append,
            map_sessions_fresh st0.sessions _ _ _ hfresh]
          have hmap : ([⟨st0.nextSessionId, VARIANT_ID, st0.clock, none, "running"⟩] :
              List Session).map (fun sess => if sess.sid = st0.nextSessionId then
                { sess with endedAt := some (acc1.st.clock + 1), status := "completed" }
              else sess) =
              [⟨st0.nextSessionId, VARIANT_ID, st0.clock, some (acc1.st.clock + 1),
                "completed"⟩] := by
            simp
          rw [hmap]
          exact find_session_fresh st0.sessions st0.nextSessionId _ hfresh rfl
      · have hmsne : ms ≠ [] := fun h => hok (Or.inl h)
        have hbad : robot.sensor.n = 0 ∨
            robot.sensor.white.length < robot.sensor.n ∨
            robot.sensor.black.length < robot.sensor.n ∨
            ∃ raw ∈ ms, raw.length < robot.sensor.n := by
          by_contra hc
          push_neg at hc
          obtain ⟨h1, h2, h3, h4⟩ := hc
          refine hok (Or.inr ⟨by omega, by omega, by omega, fun raw hr => ?_⟩)
          have := h4 raw hr
          omega
        obtain ⟨acc1, msg, heq⟩ :=
          runSteps_exn robot.sensor (some rid) noise ms 1 acc0 st0.nextSessionId hPreId hmsne hbad
        obtain ⟨F1, F2, F3, ⟨ext, hext, hng⟩, F5⟩ :=
          runSteps_frame robot.sensor (some rid) noise ms 1 acc0 st0.nextSessionId hPreId
        rw [heq] at F1 F2 hext
        simp only [RunRes.acc] at F1 F2 hext
        obtain ⟨T1, T2, T3, _, _, _⟩ := event_end_spec acc1.st st0.nextSessionId F1
          "exception" "error" ("Ошибка сценария: " ++ msg) "error"
        have hTrace : (match runSteps robot.sensor (some rid) noise ms 1 acc0 with
            | .ok acc =>
              (⟨{ robot with pid := acc.pid },
                (acc.st.log_event "scenario_end" "info"
                  ("Сценарий завершён. Сошёл " ++ toString acc.offCount ++ " раз(а).")).end_session
                  "completed",
                http_end_session (http_log_event acc.remote (some rid) "scenario_end" "info"
                  ("Сценарий завершён. Сошёл " ++ toString acc.offCount ++ " раз(а).")) (some rid)
                  "completed"⟩ : FollowResult)
            | .exn acc msg =>
              ⟨{ robot with pid := acc.pid },
                (acc.st.log_event "exception" "error" ("Ошибка сценария: " ++ msg)).end_session
                  "error",
                http_end_session (http_log_event acc.remote (some rid) "exception" "error"
                  ("Ошибка сценария: " ++ msg)) (some rid) "error"⟩).st.trace =
            ((acc1.st.log_event "exception" "error"
              ("Ошибка сценария: " ++ msg)).end_session "error").trace := by
          rw [heq]
        have hSess : (match runSteps robot.sensor (some rid) noise ms 1 acc0 with
            | .ok acc =>
              (⟨{ robot with pid := acc.pid },
                (acc.st.log_event "scenario_end" "info"
                  ("Сценарий завершён. Сошёл " ++ toString acc.offCount ++ " раз(а).")).end_session
                  "completed",
                http_end_session (http_log_event acc.remote (some rid) "scenario_end" "info"
                  ("Сценарий завершён. Сошёл " ++ toString acc.offCount ++ " раз(а).")) (some rid)
                  "completed"⟩ : FollowResult)
            | .exn acc msg =>
              ⟨{ robot with pid := acc.pid },
                (acc.st.log_event "exception" "error" ("Ошибка сценария: " ++ msg)).end_session
                  "error",
                http_end_session (http_log_event acc.remote (some rid) "exception" "error"
                  ("Ошибка сценария: " ++ msg)) (some rid) "error"⟩).st.sessions =
            ((acc1.st.log_event "exception" "error"
              ("Ошибка сценария: " ++ msg)).end_session "error").sessions := by
          rw [heq]
        refine ⟨"error", acc1.st.clock + 1,
          [TelOp.opEvent st0.nextSessionId "scenario_start_local"] ++ ext ++
            [TelOp.opEvent st0.nextSessionId "exception"],
          ?_, ?_, Or.inr rfl, iff_of_false (by simp) hok, ?_⟩
        · rw [hTrace, T1, hext, hPreTrace]
          simp [List.append_assoc]
        · intro op hop
          rcases List.mem_append.1 hop with h | h
          · rcases List.mem_append.1 h with h2 | h2
            · rcases List.mem_cons.1 h2 with h3 | h3
              · subst h3; rfl
              · simp at h3
            · exact hng op h2
          · rcases List.mem_cons.1 h with h2 | h2
            · subst h2; rfl
            · simp at h2
        · unfold findSession
          rw [hSess, T2, F2, hPreSessions, List.map_append,
            map_sessions_fresh st0.sessions _ _ _ hfresh]
          have hmap : ([⟨st0.nextSessionId, VARIANT_ID, st0.clock, none, "running"⟩] :
              List Session).map (fun sess => if sess.sid = st0.nextSessionId then
                { sess with endedAt := some (acc1.st.clock + 1), status := "error" }
              else sess) =
              [⟨st0.nextSessionId, VARIANT_ID, st0.clock, some (acc1.st.clock + 1),
                "error"⟩] := by
            simp
          rw [hmap]
          exact find_session_fresh st0.sessions st0.nextSessionId _ hfresh rfl
  · obtain ⟨T1, T2, T3, _, _, _⟩ := event_end_spec (stC.start_session VARIANT_ID).2
      stC.nextSessionId rfl "calibration" "info" "Калибровка завершена" "completed"
    refine ⟨(stC.start_session VARIANT_ID).2.clock + 1, ?_, ?_⟩
    · show (((stC.start_session VARIANT_ID).2.log_event "calibration" "info"
        "Калибровка завершена").end_session "completed").trace = _
      rw [T1]
      rw [show (stC.start_session VARIANT_ID).2.trace =
        stC.trace ++ [TelOp.opStart stC.nextSessionId stC.clock] from rfl]
      rw [show (stC.start_session VARIANT_ID).2.clock = stC.clock + 1 from rfl]
      simp [List.append_assoc]
    · show findSession (((stC.start_session VARIANT_ID).2.log_event "calibration" "info"
        "Калибровка завершена").end_session "completed") stC.nextSessionId = _
      unfold findSession
      rw [T2]
      rw [show (stC.start_session VARIANT_ID).2.sessions =
        stC.sessions ++ [⟨stC.nextSessionId, VARIANT_ID, stC.clock, none, "running"⟩] from rfl]
      rw [List.map_append, map_sessions_fresh stC.sessions _ _ _ hfreshC]
      have hmap : ([⟨stC.nextSessionId, VARIANT_ID, stC.clock, none, "running"⟩] : List Session).map
          (fun sess => if sess.sid = stC.nextSessionId then
            { sess with endedAt := some ((stC.start_session VARIANT_ID).2.clock + 1),
                        status := "completed" }
          else sess) =
          [⟨stC.nextSessionId, VARIANT_ID, stC.clock,
            some ((stC.start_session VARIANT_ID).2.clock + 1), "completed"⟩] := by
        simp
      rw [hmap]
      exact find_session_fresh stC.sessions stC.nextSessionId _ hfreshC rfl

/-- C1: when the remote session-creation call yields no id, `follow_line`
records exactly one degradation event (type `server`, severity `warning`),
issues no remote request beyond the failed creation attempt (every
subsequent remote call returns without action), still processes every step
(`K·N` sensor readings), and ends the local session with status
`completed`. -/
theorem remote_down_degrades (robot : LineFollowerRobot) (st0 : TelemetryLogger)
    (r0 : List RemoteReq) (noise : Nat → Nat → ℚ) (ms : List (List ℚ)) (label : String)
    (hn : 1 ≤ robot.sensor.n)
    (hw : robot.sensor.n ≤ robot.sensor.white.length)
    (hb : robot.sensor.n ≤ robot.sensor.black.length)
    (hlen : ∀ raw ∈ ms, robot.sensor.n ≤ raw.length)
    (hfresh : ∀ sess ∈ st0.sessions, sess.sid ≠ st0.nextSessionId) :
    (∃ ts, (robot.follow_line st0 r0 none noise ms label).st.events.filter
        (fun e => e.eventType = "server") =
      st0.events.filter (fun e => e.eventType = "server") ++
        [⟨st0.nextSessionId, ts, "server", "warning",
          "Не удалось подключиться к серверу телеметрии; записи будут только локально"⟩]) ∧
    (robot.follow_line st0 r0 none noise ms label).remote =
      r0 ++ [RemoteReq.create VARIANT_ID] ∧
    (robot.follow_line st0 r0 none noise ms label).st.sensorReadings.length =
      st0.sensorReadings.length + ms.length * robot.sensor.n ∧
    (∃ endTs, findSession (robot.follow_line st0 r0 none noise ms label).st st0.nextSessionId =
      some ⟨st0.nextSessionId, VARIANT_ID, st0.clock, some endTs, "completed"⟩) := by
  have hfl : robot.follow_line st0 r0 none noise ms label =
      (match runSteps robot.sensor none noise ms 1
          ⟨robot.pid, ((st0.start_session VARIANT_ID).2.log_event "server" "warning"
            "Не удалось подключиться к серверу телеметрии; записи будут только локально").log_event
            "scenario_start_local" "info" ("Начало сценария локально: " ++ label),
            r0 ++ [RemoteReq.create VARIANT_ID], 0, 0⟩ with
        | .ok acc =>
          ⟨{ robot with pid := acc.pid },
            (acc.st.log_event "scenario_end" "info"
              ("Сценарий завершён. Сошёл " ++ toString acc.offCount ++ " раз(а).")).end_session
              "completed",
            http_end_session (http_log_event acc.remote none "scenario_end" "info"
              ("Сценарий завершён. Сошёл " ++ toString acc.offCount ++ " раз(а).")) none
              "completed"⟩
        | .exn acc msg =>
          ⟨{ robot with pid := acc.pid },
            (acc.st.log_event "exception" "error" ("Ошибка сценария: " ++ msg)).end_session
              "error",
            http_end_session (http_log_event acc.remote none "exception" "error"
              ("Ошибка сценария: " ++ msg)) none "error"⟩) := rfl
  rw [hfl]
  set acc0 : RunAcc := ⟨robot.pid, ((st0.start_session VARIANT_ID).2.log_event "server"
    "warning" "Не удалось подключиться к серверу телеметрии; записи будут только локально").log_event
    "scenario_start_local" "info" ("Начало сценария локально: " ++ label),
    r0 ++ [RemoteReq.create VARIANT_ID], 0, 0⟩ with hacc0
  have hPreId : acc0.st.sessionId = some st0.nextSessionId := by rw [hacc0]; rfl
  have hPreSessions : acc0.st.sessions = st0.sessions ++
      [⟨st0.nextSessionId, VARIANT_ID, st0.clock, none, "running"⟩] := by rw [hacc0]; rfl
  have hPreReadings : acc0.st.sensorReadings = st0.sensorReadings := by rw [hacc0]; rfl
  have hPreRemote : acc0.remote = r0 ++ [RemoteReq.create VARIANT_ID] := by rw [hacc0]
  have hPreEvents : acc0.st.events = (st0.events ++
      [⟨st0.nextSessionId, st0.clock + 1, "server", "warning",
        "Не удалось подключиться к серверу телеметрии; записи будут только локально"⟩]) ++
      [⟨st0.nextSessionId, st0.clock + 2, "scenario_start_local", "info",
        "Начало сценария локально: " ++ label⟩] := by rw [hacc0]; rfl
  obtain ⟨acc1, heq, S1, S2, S3, S4, S5, S6, hT, S8⟩ :=
    runSteps_ok robot.sensor none noise ms 1 acc0 st0.nextSessionId hPreId hn hw hb hlen
  obtain ⟨T1, T2, T3, T4, T5, T6⟩ := event_end_spec acc1.st st0.nextSessionId S1
    "scenario_end" "info"
    ("Сценарий завершён. Сошёл " ++ toString acc1.offCount ++ " раз(а).") "completed"
  rw [heq]
  refine ⟨⟨st0.clock + 1, ?_⟩, ?_, ?_, ⟨acc1.st.clock + 1, ?_⟩⟩
  · rw [T4, List.filter_append, S4, hPreEvents]
    simp [List.filter_append]
  · show acc1.remote = r0 ++ [RemoteReq.create VARIANT_ID]
    rw [S8 rfl, hPreRemote]
  · rw [T5]
    have hlenmap := congrArg List.length S5
    simp only [List.length_map, List.length_append] at hlenmap
    rw [hlenmap, hPreReadings]
    congr 1
    rw [List.length_flatten]
    simp [sensorNames, Nat.mul_comm]
  · unfold findSession
    rw [T2, S2, hPreSessions, List.map_append,
      map_sessions_fresh st0.sessions _ _ _ hfresh]
    have hmap : ([⟨st0.nextSessionId, VARIANT_ID, st0.clock, none, "running"⟩] :
        List Session).map (fun sess => if sess.sid = st0.nextSessionId then
          { sess with endedAt := some (acc1.st.clock + 1), status := "completed" }
        else sess) =
        [⟨st0.nextSessionId, VARIANT_ID, st0.clock, some (acc1.st.clock + 1),
          "completed"⟩] := by
      simp
    rw [hmap]
    exact find_session_fresh st0.sessions st0.nextSessionId _ hfresh rfl

/-- C7: a `follow_line` run over `K` frames with `N` sensors appends to the
local sink exactly `K` batches of sensor readings named `IR_1..IR_N`
(`K·N` rows) and exactly `K` actuator-command pairs `Motor_L`,`Motor_R`
(`2·K` rows), for every remote outcome. -/
theorem local_row_counts (robot : LineFollowerRobot) (st0 : TelemetryLogger)
    (r0 : List RemoteReq) (outcome : Option Nat) (noise : Nat → Nat → ℚ)
    (ms : List (List ℚ)) (label : String)
    (hn : 1 ≤ robot.sensor.n)
    (hw : robot.sensor.n ≤ robot.sensor.white.length)
    (hb : robot.sensor.n ≤ robot.sensor.black.length)
    (hlen : ∀ raw ∈ ms, robot.sensor.n ≤ raw.length) :
    (robot.follow_line st0 r0 outcome noise ms label).st.sensorReadings.map
        (fun rec => rec.sensorType) =
      st0.sensorReadings.map (fun rec => rec.sensorType) ++
        List.flatten (List.replicate ms.length (sensorNames robot.sensor.n)) ∧
    (robot.follow_line st0 r0 outcome noise ms label).st.actuatorCommands.map
        (fun rec => rec.actuatorType) =
      st0.actuatorCommands.map (fun rec => rec.actuatorType) ++
        List.flatten (List.replicate ms.length ["Motor_L", "Motor_R"]) ∧
    (robot.follow_line st0 r0 outcome noise ms label).st.sensorReadings.length =
      st0.sensorReadings.length + ms.length * robot.sensor.n ∧
    (robot.follow_line st0 r0 outcome noise ms label).st.actuatorCommands.length =
      st0.actuatorCommands.length + 2 * ms.length := by
  cases outcome with
  | none =>
    have hfl : robot.follow_line st0 r0 none noise ms label =
        (match runSteps robot.sensor none noise ms 1
            ⟨robot.pid, ((st0.start_session VARIANT_ID).2.log_event "server" "warning"
              "Не удалось подключиться к серверу телеметрии; записи будут только локально").log_event
              "scenario_start_local" "info" ("Начало сценария локально: " ++ label),
              r0 ++ [RemoteReq.create VARIANT_ID], 0, 0⟩ with
          | .ok acc =>
            ⟨{ robot with pid := acc.pid },
              (acc.st.log_event "scenario_end" "info"
                ("Сценарий завершён. Сошёл " ++ toString acc.offCount ++ " раз(а).")).end_session
                "completed",
              http_end_session (http_log_event acc.remote none "scenario_end" "info"
                ("Сценарий завершён. Сошёл " ++ toString acc.offCount ++ " раз(а).")) none
                "completed"⟩
          | .exn acc msg =>
            ⟨{ robot with pid := acc.pid },
              (acc.st.log_event "exception" "error" ("Ошибка сценария: " ++ msg)).end_session
                "error",
              http_end_session (http_log_event acc.remote none "exception" "error"
                ("Ошибка сценария: " ++ msg)) none "error"⟩) := rfl
    rw [hfl]
    set acc0 : RunAcc := ⟨robot.pid, ((st0.start_session VARIANT_ID).2.log_event "server"
      "warning" "Не удалось подключиться к серверу телеметрии; записи будут только локально").log_event
      "scenario_start_local" "info" ("Начало сценария локально: " ++ label),
      r0 ++ [RemoteReq.create VARIANT_ID], 0, 0⟩ with hacc0
    have hPreId : acc0.st.sessionId = some st0.nextSessionId := by rw [hacc0]; rfl
    have hPreReadings : acc0.st.sensorReadings = st0.sensorReadings := by rw [hacc0]; rfl
    have hPreCommands : acc0.st.actuatorCommands = st0.actuatorCommands := by rw [hacc0]; rfl
    obtain ⟨acc1, heq, S1, S2, S3, S4, S5, S6, hT, S8⟩ :=
      runSteps_ok robot.sensor none noise ms 1 acc0 st0.nextSessionId hPreId hn hw hb hlen
    obtain ⟨T1, T2, T3, T4, T5, T6⟩ := event_end_spec acc1.st st0.nextSessionId S1
      "scenario_end" "info"
      ("Сценарий завершён. Сошёл " ++ toString acc1.offCount ++ " раз(а).") "completed"
    rw [heq]
    have hreads : acc1.st.sensorReadings.map (fun rec => rec.sensorType) =
        st0.sensorReadings.map (fun rec => rec.sensorType) ++
          List.flatten (List.replicate ms.length (sensorNames robot.sensor.n)) := by
      rw [S5, hPreReadings]
    have hcmds : acc1.st.actuatorCommands.map (fun rec => rec.actuatorType) =
        st0.actuatorCommands.map (fun rec => rec.actuatorType) ++
          List.flatten (List.replicate ms.length ["Motor_L", "Motor_R"]) := by
      rw [S6, hPreCommands]
    refine ⟨by rw [T5]; exact hreads, by rw [T6]; exact hcmds, ?_, ?_⟩
    · rw [T5]
      have hlenmap := congrArg List.length hreads
      simp only [List.length_map, List.length_append] at hlenmap
      rw [hlenmap]
      congr 1
      rw [List.length_flatten]
      simp [sensorNames, Nat.mul_comm]
    · rw [T6]
      have hlenmap := congrArg List.length hcmds
      simp only [List.length_map, List.length_append] at hlenmap
      rw [hlenmap]
      congr 1
      rw [List.length_flatten]
      simp [Nat.mul_comm]
  | some rid =>
    have hfl : robot.follow_line st0 r0 (some rid) noise ms label =
        (match runSteps robot.sensor (some rid) noise ms 1
            ⟨robot.pid, (st0.start_session VARIANT_ID).2.log_event
              "scenario_start_local" "info" ("Начало сценария локально: " ++ label),
              http_log_event (r0 ++ [RemoteReq.create VARIANT_ID]) (some rid) "scenario_start"
                "info" ("Начало сценария: " ++ label), 0, 0⟩ with
          | .ok acc =>
            ⟨{ robot with pid := acc.pid },
              (acc.st.log_event "scenario_end" "info"
                ("Сценарий завершён. Сошёл " ++ toString acc.offCount ++ " раз(а).")).end_session
                "completed",
              http_end_session (http_log_event acc.remote (some rid) "scenario_end" "info"
                ("Сценарий завершён. Сошёл " ++ toString acc.offCount ++ " раз(а).")) (some rid)
                "completed"⟩
          | .exn acc msg =>
            ⟨{ robot with pid := acc.pid },
              (acc.st.log_event "exception" "error" ("Ошибка сценария: " ++ msg)).end_session
                "error",
              http_end_session (http_log_event acc.remote (some rid) "exception" "error"
                ("Ошибка сценария: " ++ msg)) (some rid) "error"⟩) := rfl
    rw [hfl]
    set acc0 : RunAcc := ⟨robot.pid, (st0.start_session VARIANT_ID).2.log_event
      "scenario_start_local" "info" ("Начало сценария локально: " ++ label),
      http_log_event (r0 ++ [RemoteReq.create VARIANT_ID]) (some rid) "scenario_start"
        "info" ("Начало сценария: " ++ label), 0, 0⟩ with hacc0
    have hPreId : acc0.st.sessionId = some st0.nextSessionId := by rw [hacc0]; rfl
    have hPreReadings : acc0.st.sensorReadings = st0.sensorReadings := by rw [hacc0]; rfl
    have hPreCommands : acc0.st.actuatorCommands = st0.actuatorCommands := by rw [hacc0]; rfl
    obtain ⟨acc1, heq, S1, S2, S3, S4, S5, S6, hT, S8⟩ :=
      runSteps_ok robot.sensor (some rid) noise ms 1 acc0 st0.nextSessionId hPreId hn hw hb hlen
    obtain ⟨T1, T2, T3, T4, T5, T6⟩ := event_end_spec acc1.st st0.nextSessionId S1
      "scenario_end" "info"
      ("Сценарий завершён. Сошёл " ++ toString acc1.offCount ++ " раз(а).") "completed"
    rw [heq]
    have hreads : acc1.st.sensorReadings.map (fun rec => rec.sensorType) =
        st0.sensorReadings.map (fun rec => rec.sensorType) ++
          List.flatten (List.replicate ms.length (sensorNames robot.sensor.n)) := by
      rw [S5, hPreReadings]
    have hcmds : acc1.st.actuatorCommands.map (fun rec => rec.actuatorType) =
        st0.actuatorCommands.map (fun rec => rec.actuatorType) ++
          List.flatten (List.replicate ms.length ["Motor_L", "Motor_R"]) := by
      rw [S6, hPreCommands]
    refine ⟨by rw [T5]; exact hreads, by rw [T6]; exact hcmds, ?_, ?_⟩
    · rw [T5]
      have hlenmap := congrArg List.length hreads
      simp only [List.length_map, List.length_append] at hlenmap
      rw [hlenmap]
      congr 1
      rw [List.length_flatten]
      simp [sensorNames, Nat.mul_comm]
    · rw [T6]
      have hlenmap := congrArg List.length hcmds
      simp only [List.length_map, List.length_append] at hlenmap
      rw [hlenmap]
      congr 1
      rw [List.length_flatten]
      simp [Nat.mul_comm]

theorem remote_down_degrades_witness :
    (∃ ts, ((LineFollowerRobot.init 5).follow_line emptyLogger [] none (fun _ _ => 0) [] "t").st.events.filter
        (fun e => e.eventType = "server") =
      emptyLogger.events.filter (fun e => e.eventType = "server") ++
        [⟨emptyLogger.nextSessionId, ts, "server", "warning",
          "Не удалось подключиться к серверу телеметрии; записи будут только локально"⟩]) ∧
    ((LineFollowerRobot.init 5).follow_line emptyLogger [] none (fun _ _ => 0) [] "t").remote =
      [] ++ [RemoteReq.create VARIANT_ID] ∧
    ((LineFollowerRobot.init 5).follow_line emptyLogger [] none (fun _ _ => 0) [] "t").st.sensorReadings.length =
      emptyLogger.sensorReadings.length + ([] : List (List ℚ)).length * (LineFollowerRobot.init 5).sensor.n ∧
    (∃ endTs, findSession ((LineFollowerRobot.init 5).follow_line emptyLogger [] none
        (fun _ _ => 0) [] "t").st emptyLogger.nextSessionId =
      some ⟨emptyLogger.nextSessionId, VARIANT_ID, emptyLogger.clock, some endTs, "completed"⟩) :=
  remote_down_degrades (LineFollowerRobot.init 5) emptyLogger [] (fun _ _ => 0) [] "t"
    (by decide) (by decide) (by decide) (by simp) (by simp [emptyLogger])

theorem session_lifecycle_witness :
    findSession (emptyLogger.start_session VARIANT_ID).2 emptyLogger.nextSessionId =
      some ⟨emptyLogger.nextSessionId, VARIANT_ID, emptyLogger.clock, none, "running"⟩ ∧
    (∃ status endTs mid,
      ((LineFollowerRobot.init 5).follow_line emptyLogger [] none (fun _ _ => 0) [] "t").st.trace =
        emptyLogger.trace ++ (TelOp.opStart emptyLogger.nextSessionId emptyLogger.clock ::
          (mid ++ [TelOp.opEnd emptyLogger.nextSessionId status endTs])) ∧
      (∀ op ∈ mid, op.isSessionOp = false) ∧
      (status = "completed" ∨ status = "error") ∧
      (status = "completed" ↔ scenarioOk (LineFollowerRobot.init 5).sensor []) ∧
      findSession ((LineFollowerRobot.init 5).follow_line emptyLogger [] none
          (fun _ _ => 0) [] "t").st emptyLogger.nextSessionId =
        some ⟨emptyLogger.nextSessionId, VARIANT_ID, emptyLogger.clock, some endTs, status⟩) ∧
    (∃ endTs,
      ((LineFollowerRobot.init 5).calibrate emptyLogger (fun _ => 0) (fun _ => 0)).2.trace =
        emptyLogger.trace ++ [TelOp.opStart emptyLogger.nextSessionId emptyLogger.clock,
          TelOp.opEvent emptyLogger.nextSessionId "calibration",
          TelOp.opEnd emptyLogger.nextSessionId "completed" endTs] ∧
      findSession ((LineFollowerRobot.init 5).calibrate emptyLogger
          (fun _ => 0) (fun _ => 0)).2 emptyLogger.nextSessionId =
        some ⟨emptyLogger.nextSessionId, VARIANT_ID, emptyLogger.clock, some endTs, "completed"⟩) :=
  session_lifecycle (LineFollowerRobot.init 5) emptyLogger [] none (fun _ _ => 0) [] "t"
    (fun _ => 0) (fun _ => 0) emptyLogger (by simp [emptyLogger]) (by simp [emptyLogger])

theorem local_row_counts_witness :
    ((LineFollowerRobot.init 5).follow_line emptyLogger [] none (fun _ _ => 0) [] "t").st.sensorReadings.map
        (fun rec => rec.sensorType) =
      emptyLogger.sensorReadings.map (fun rec => rec.sensorType) ++
        List.flatten (List.replicate ([] : List (List ℚ)).length
          (sensorNames (LineFollowerRobot.init 5).sensor.n)) ∧
    ((LineFollowerRobot.init 5).follow_line emptyLogger [] none (fun _ _ => 0) [] "t").st.actuatorCommands.map
        (fun rec => rec.actuatorType) =
      emptyLogger.actuatorCommands.map (fun rec => rec.actuatorType) ++
        List.flatten (List.replicate ([] : List (List ℚ)).length ["Motor_L", "Motor_R"]) ∧
    ((LineFollowerRobot.init 5).follow_line emptyLogger [] none (fun _ _ => 0) [] "t").st.sensorReadings.length =
      emptyLogger.sensorReadings.length + ([] : List (List ℚ)).length * (LineFollowerRobot.init 5).sensor.n ∧
    ((LineFollowerRobot.init 5).follow_line emptyLogger [] none (fun _ _ => 0) [] "t").st.actuatorCommands.length =
      emptyLogger.actuatorCommands.length + 2 * ([] : List (List ℚ)).length :=
  local_row_counts (LineFollowerRobot.init 5) emptyLogger [] none (fun _ _ => 0) [] "t"
    (by decide) (by decide) (by decide) (by simp)

end Robot
